import Mathlib

/-!
Verification of the reflection (mirrors) and debugger-breakpoint core of the
Dart VM runtime (`runtime/lib/mirrors.cc`, `runtime/vm/debugger.h`).

The development shallowly embeds the VM's object model (classes, functions,
fields, libraries, context scopes) and the native entry points of the mirrors
subsystem as executable Lean functions, translated from the C++ source.
Collaborator code that lives outside the provided sources (object.cc lookup
primitives, `dart_entry.cc` invocation, `invocation_mirror.h` encoding,
`debugger.cc` breakpoint bookkeeping) is modelled from the specification and
marked as such in doc comments.
-/

namespace DartVM

/-- Identifier of a class entity (its class id). -/
abbrev ClassId := Nat

/-- Identifier of a function entity. -/
abbrev FunctionId := Nat

/-- Identifier of a library entity. -/
abbrev LibraryId := Nat

/-- Dart type descriptors as the mirrors code consumes them: a (finalized)
type with a resolved type class and an optional type-argument vector (the
vector is absent when it was optimized away because every argument is
`dynamic`), a type parameter, or a bounded type wrapping another type. -/
inductive AbstractType where
  | type (cid : ClassId) (args : Option (List AbstractType))
  | typeParameter (name : String)
  | boundedType (inner : AbstractType)

/-- Runtime values flowing through the reflective entry points. `sentinel`
is the distinguished `Object::sentinel()` instance used to signal "not
found"; `nullInstance` is the language's null. Instances carry their class
id (`Instance::clazz()`). `staticClosure f` is the implicit static closure
of function `f` (`Function::ImplicitStaticClosure`), `rareType c` is class
`c`'s rare type used as a type-level receiver stand-in, `freshInstance c` a
newly allocated instance of `c`, `smi` a small integer, and `typeArgsV` a
type-argument vector passed to factories. -/
inductive Value where
  | nullInstance
  | sentinel
  | inst (cid : ClassId) (n : Nat)
  | staticClosure (fid : FunctionId)
  | rareType (cid : ClassId)
  | freshInstance (cid : ClassId)
  | smi (n : Int)
  | typeArgsV (args : Option (List AbstractType))

/-- Whether a value is the distinguished sentinel instance
(`result.raw() == Object::sentinel().raw()` in the source). -/
def Value.isSentinel : Value → Bool
  | .sentinel => true
  | _ => false

/-- An error object: a `LanguageError` (a delayed compilation error) or any
other error, with its message. -/
structure ErrorVal where
  isLanguage : Bool
  msg : String

/-- Result of running a Dart function through `DartEntry::InvokeFunction`:
either a value or an error. -/
inductive InvokeRes where
  | val (v : Value)
  | errv (e : ErrorVal)

/-- Function kinds from `RawFunction::Kind` that the mirrors code inspects. -/
inductive FunctionKind where
  | regularF
  | getterF
  | setterF
  | constructorF
  | signatureF
  deriving DecidableEq

/-- The call classification of a failed invocation
(`InvocationMirror::Call`). -/
inductive IMCall where
  | dynamicCall
  | superCall
  | staticCall
  | constructorCall
  | topLevelCall
  deriving DecidableEq

/-- The operation classification of a failed invocation
(`InvocationMirror::Type`). -/
inductive IMType where
  | methodT
  | getterT
  | setterT
  deriving DecidableEq

/-- Numeric rank of an `IMCall`. -/
def IMCall.rank : IMCall → Nat
  | .dynamicCall => 0
  | .superCall => 1
  | .staticCall => 2
  | .constructorCall => 3
  | .topLevelCall => 4

/-- Numeric rank of an `IMType`. -/
def IMType.rank : IMType → Nat
  | .methodT => 0
  | .getterT => 1
  | .setterT => 2

/-- Modelled from the spec: `InvocationMirror::EncodeType` lives in
`lib/invocation_mirror.h`, which is not among the sources; the spec says the
tag is the call classification (instance/static/top-level/constructor)
crossed with the operation (get/set/method), so we model the encoding as an
injective pairing of the two enumerations. -/
def encodeInvocationType (c : IMCall) (t : IMType) : Nat :=
  c.rank * 4 + t.rank

/-- Outcome of a reflective native entry: a normal result, a thrown
NoSuchMethod condition (carrying the receiver or type-level stand-in, the
attempted name, the encoded call classification, and the formal parameter
names when a function object was at hand), a thrown
MirroredCompilationError, or a propagated non-language error. -/
inductive Outcome (α : Type) where
  | ok (a : α)
  | noSuchMethod (receiver : Value) (name : String) (encodedType : Nat)
      (paramNames : Option (List String))
  | mce (msg : String)
  | err (msg : String)

/-- `ThrowInvokeError`: a `LanguageError` (delayed compilation error) is
rethrown as a MirroredCompilationError wrapping its message; any other
error propagates. -/
def throwInvokeError (e : ErrorVal) : Outcome α :=
  if e.isLanguage then .mce e.msg else .err e.msg

/-- `ThrowNoSuchMethod`: builds the NoSuchMethod condition. Slot 5 of the
argument array (the formal parameter names of the function, gathered with
`Function::ParameterNameAt` over all `NumParameters()` parameters) is
filled exactly when the `function` handle passed by the throw site is
non-null. -/
def throwNoSuchMethodNames (receiver : Value) (fname : String)
    (paramNames : Option (List String)) (call : IMCall) (type : IMType) :
    Outcome α :=
  .noSuchMethod receiver fname (encodeInvocationType call type) paramNames

/-- One slot of a field's or parameter's descriptor as the reflective
parameter reparse (`Parser::ParseFunctionParameters`) reports it:
final-ness, default value and metadata. -/
structure ParamDesc where
  isFinal : Bool
  defaultValue : Value
  metadata : Value

/-- A VM function entity, carrying the data the mirrors natives consult.
`invokeResult` models the outcome of `DartEntry::InvokeFunction` on it (the
body runs arbitrary Dart code, which is outside this embedding, so the
result is a datum); `validArgShapes` models
`Function::AreValidArguments` as the set of accepted (argument count,
named-argument list) shapes; `parseError` and `paramDescriptors` model the reflective parameter
reparse; `ctxScopeNames` is the name list of its `context_scope()`
slots. -/
structure FunctionEnt where
  id : FunctionId
  name : String
  kind : FunctionKind
  isStatic : Bool
  isVisible : Bool
  hasCode : Bool
  owner : ClassId
  paramNames : List String
  numImplicitParams : Nat
  numOptionalParams : Nat
  numOptionalNamedParams : Nat
  isAbstract : Bool
  isConst : Bool
  isRedirecting : Bool
  isImplicitConstructor : Bool
  isImplicitGetter : Bool
  isImplicitSetter : Bool
  isRedirectingFactoryF : Bool
  redirectionTypeF : Option AbstractType
  redirectionTargetF : Option FunctionId
  compileError : Option ErrorVal
  parseError : Option ErrorVal
  paramDescriptors : List ParamDesc
  invokeResult : InvokeRes
  validArgShapes : List (Nat × List String)
  ctxScopeNames : List String

/-- `Function::IsConstructor()`: a generative constructor is a
constructor-kind function that is not static. -/
def FunctionEnt.isGenerativeConstructor (f : FunctionEnt) : Bool :=
  f.kind = .constructorF && !f.isStatic

/-- `Function::IsFactory()`: a factory is a static constructor-kind
function. -/
def FunctionEnt.isFactoryFn (f : FunctionEnt) : Bool :=
  f.kind = .constructorF && f.isStatic

/-- A VM field entity. Uninitialized static fields are a distinct state
(`Field::IsUninitialized`), requiring fallback to the implicit getter. -/
structure FieldEnt where
  id : Nat
  name : String
  isStatic : Bool
  isFinal : Bool
  isUninit : Bool
  value : Value
  owner : ClassId

/-- A VM class entity. Functions are referenced by id into the program's
global function table. The signature flags drive the class-mirror branch
(`IsSignatureClass` / `IsCanonicalSignatureClass`), `isImplementation`
models `RawObject::IsImplementationClassId(klass.id())`. -/
structure ClassEnt where
  id : ClassId
  name : String
  superClass : Option ClassId
  library : LibraryId
  fields : List FieldEnt
  functionIds : List FunctionId
  isDynamicClass : Bool
  isVoidClass : Bool
  isSignatureClass : Bool
  isCanonicalSignatureClass : Bool
  isImplementation : Bool
  isMixinApplication : Bool
  isMixinTypedefC : Bool
  numTypeParameters : Nat
  isFinalized : Bool
  finalizeError : Option ErrorVal

/-- An entry of a library's dictionary: a class (by id), a top-level field,
or a top-level function (by id). -/
inductive DictEntry where
  | clsE (cid : ClassId)
  | fldE (f : FieldEnt)
  | fnE (fid : FunctionId)

/-- A deferred-import prefix of a library: the prefix name and the
libraries imported under it. -/
structure LibraryPrefixEnt where
  name : String
  libraries : List LibraryId

/-- A VM library: its dictionary in declaration order, its direct imports
in import order, and its import prefixes. -/
structure LibraryEnt where
  id : LibraryId
  name : String
  url : String
  dictionary : List DictEntry
  imports : List LibraryId
  prefixes : List LibraryPrefixEnt

/-- The program: global tables of classes, functions and libraries, plus
the class id of the `dynamic` class (`Object::dynamic_type()`'s class). -/
structure Program where
  classes : List ClassEnt
  functions : List FunctionEnt
  libraries : List LibraryEnt
  dynamicCid : ClassId

/-- Class lookup by id. -/
def Program.findClass (p : Program) (cid : ClassId) : Option ClassEnt :=
  p.classes.find? (fun c => c.id == cid)

/-- Function lookup by id. -/
def Program.findFunction (p : Program) (fid : FunctionId) :
    Option FunctionEnt :=
  p.functions.find? (fun f => f.id == fid)

/-- Library lookup by id. -/
def Program.findLibrary (p : Program) (lid : LibraryId) :
    Option LibraryEnt :=
  p.libraries.find? (fun l => l.id == lid)

/-- Fuel bound for superclass-chain walks: one more than the number of
classes, so any acyclic chain is fully traversed. -/
def Program.chainFuel (p : Program) : Nat :=
  p.classes.length + 1

/-- `Field::GetterName`: the implicit getter of a field `n` is named
`get:n` (the `Symbols::GetterPrefix`, modelled from the VM's object model,
which is outside the provided sources). -/
def getterName (n : String) : String := "get:" ++ n

/-- `Field::SetterName`: the implicit setter of a field `n` is named
`set:n`. -/
def setterName (n : String) : String := "set:" ++ n

/-- The functions of a class, resolved through the global table. -/
def Program.classFunctions (p : Program) (k : ClassEnt) : List FunctionEnt :=
  k.functionIds.filterMap p.findFunction

/-- `Class::LookupStaticField`: first static field of the class with the
given name (modelled from the VM object model, outside the sources). -/
def lookupStaticField (k : ClassEnt) (name : String) : Option FieldEnt :=
  k.fields.find? (fun f => f.name == name && f.isStatic)

/-- `Class::LookupInstanceField`: first non-static field of the class with
the given name. -/
def lookupInstanceField (k : ClassEnt) (name : String) : Option FieldEnt :=
  k.fields.find? (fun f => f.name == name && !f.isStatic)

/-- `Class::LookupStaticFunction`: first static function of the class with
the given name. -/
def lookupStaticFunction (p : Program) (k : ClassEnt) (name : String) :
    Option FunctionEnt :=
  (p.classFunctions k).find? (fun f => f.name == name && f.isStatic)

/-- `Class::LookupDynamicFunction`: first non-static function of the class
with the given name. -/
def lookupDynamicFunction (p : Program) (k : ClassEnt) (name : String) :
    Option FunctionEnt :=
  (p.classFunctions k).find? (fun f => f.name == name && !f.isStatic)

/-- `Class::LookupFunction`: first function of the class with the given
name, static or not. -/
def lookupFunction (p : Program) (k : ClassEnt) (name : String) :
    Option FunctionEnt :=
  (p.classFunctions k).find? (fun f => f.name == name)

/-- Name of a dictionary entry, for dictionary lookups. -/
def dictEntryName (p : Program) : DictEntry → Option String
  | .clsE cid => (p.findClass cid).map (·.name)
  | .fldE f => some f.name
  | .fnE fid => (p.findFunction fid).map (·.name)

/-- `Library::LookupLocalField`: first top-level field of the library's
dictionary with the given name. -/
def lookupLocalField (lib : LibraryEnt) (name : String) : Option FieldEnt :=
  lib.dictionary.findSome? fun e =>
    match e with
    | .fldE f => if f.name == name then some f else none
    | _ => none

/-- `Library::LookupLocalFunction`: first top-level function of the
library's dictionary with the given name. -/
def lookupLocalFunction (p : Program) (lib : LibraryEnt) (name : String) :
    Option FunctionEnt :=
  lib.dictionary.findSome? fun e =>
    match e with
    | .fnE fid =>
        match p.findFunction fid with
        | some f => if f.name == name then some f else none
        | none => none
    | _ => none

/-- `Library::LookupClass`: first class of the library's dictionary with
the given name. -/
def lookupClassInLibrary (p : Program) (lib : LibraryEnt) (name : String) :
    Option ClassEnt :=
  lib.dictionary.findSome? fun e =>
    match e with
    | .clsE cid =>
        match p.findClass cid with
        | some k => if k.name == name then some k else none
        | none => none
    | _ => none

/-- `Library::LookupFieldAllowPrivate`: private-name mangling is outside
this embedding, so the AllowPrivate lookup coincides with the local one. -/
def lookupFieldAllowPrivate (lib : LibraryEnt) (name : String) :
    Option FieldEnt :=
  lookupLocalField lib name

/-- `Library::LookupFunctionAllowPrivate`, modelled like
`lookupFieldAllowPrivate`. -/
def lookupFunctionAllowPrivate (p : Program) (lib : LibraryEnt)
    (name : String) : Option FunctionEnt :=
  lookupLocalFunction p lib name

/-- `Library::LookupLocalLibraryPrefix`. -/
def lookupLocalLibraryPrefix (lib : LibraryEnt) (name : String) :
    Option LibraryPrefixEnt :=
  lib.prefixes.find? (fun pr => pr.name == name)

/-- `LibraryPrefix::LookupObject`: first dictionary entry with the given
name across the prefix's libraries, in order. -/
def prefixLookupObject (p : Program) (pr : LibraryPrefixEnt)
    (name : String) : Option DictEntry :=
  pr.libraries.findSome? fun lid =>
    match p.findLibrary lid with
    | some lib =>
        lib.dictionary.findSome? fun e =>
          if dictEntryName p e == some name then some e else none
    | none => none

/-- `LibraryPrefix::LookupClass`. -/
def prefixLookupClass (p : Program) (pr : LibraryPrefixEnt)
    (name : String) : Option ClassEnt :=
  pr.libraries.findSome? fun lid =>
    match p.findLibrary lid with
    | some lib => lookupClassInLibrary p lib name
    | none => none

/-- `Resolver::ResolveDynamicAnyArgs` (resolver.cc is outside the provided
sources): resolve a non-static function with the given name walking up the
superclass chain. -/
def resolveDynamicAnyArgs (p : Program) (name : String) :
    Nat → Option ClassId → Option FunctionEnt
  | 0, _ => none
  | _, none => none
  | fuel + 1, some cid =>
      match p.findClass cid with
      | none => none
      | some k =>
          match lookupDynamicFunction p k name with
          | some f => some f
          | none => resolveDynamicAnyArgs p name fuel k.superClass

/-- An `ArgumentsDescriptor`: the total argument count and the named
arguments. -/
structure ArgsDesc where
  count : Nat
  names : List String
  deriving DecidableEq

/-- `Function::AreValidArguments` (object.cc is outside the provided
sources): whether the descriptor's shape is accepted by the function's
signature, modelled as membership in the function's accepted shapes. -/
def areValidArguments (f : FunctionEnt) (d : ArgsDesc) : Bool :=
  f.validArgShapes.contains (d.count, d.names)

/-- `DartEntry::InvokeFunction` (dart_entry.cc is outside the provided
sources): running the compiled function's body is modelled by the
function's `invokeResult` datum. -/
def invokeFunction (f : FunctionEnt) : InvokeRes :=
  f.invokeResult

/-- `ReturnResult`: propagate an error result through `ThrowInvokeError`,
otherwise return the instance (or null). -/
def returnResult : InvokeRes → Outcome Value
  | .val v => .ok v
  | .errv e => throwInvokeError e

/-- `Function::ImplicitClosureFunction().ImplicitStaticClosure()`: the
closurized form of a function, modelled as a closure value carrying the
function's id. -/
def implicitStaticClosure (f : FunctionEnt) : Value :=
  .staticClosure f.id

/-- Classification of a failed dynamic call by the name's accessor prefix,
as the invocation-mirror decoding does. -/
def classifyName (n : String) : IMType :=
  if "get:".isPrefixOf n then .getterT
  else if "set:".isPrefixOf n then .setterT
  else .methodT

/-- Modelled from the spec: `DartEntry::InvokeNoSuchMethod`
(vm/dart_entry.cc, not among the sources) runs the receiver's
`noSuchMethod`, which by default surfaces the language-level NoSuchMethod
condition carrying the receiver and the attempted name, classified as an
instance (dynamic) call crossed with get/set/method according to the
name's accessor prefix; formal parameter names are not part of this
payload. -/
def invokeNoSuchMethodOutcome (receiver : Value) (targetName : String) :
    Outcome Value :=
  .noSuchMethod receiver targetName
    (encodeInvocationType .dynamicCall (classifyName targetName)) none

/-- `InvokeDynamicFunction`: invoke the function, or `noSuchMethod` if it
is null, not visible, or the arguments do not fit its signature. -/
def invokeDynamicFunction (receiver : Value) (function : Option FunctionEnt)
    (targetName : String) (desc : ArgsDesc) : Outcome Value :=
  match function with
  | some f =>
      if f.isVisible && areValidArguments f desc then
        returnResult (invokeFunction f)
      else invokeNoSuchMethodOutcome receiver targetName
  | none => invokeNoSuchMethodOutcome receiver targetName

/-- Common tail of `InvokeLibraryGetter`(`AllowImports`): invoke the
resolved getter if present and visible; otherwise throw a top-level-getter
NoSuchMethod when asked to, passing the (possibly null) getter handle; the
fall-through returns the sentinel. -/
def libraryGetterTail (getter : Option FunctionEnt) (getter_name : String)
    (throw_nsm_if_absent : Bool) : Outcome Value :=
  match getter with
  | some g =>
      if g.isVisible then returnResult (invokeFunction g)
      else if throw_nsm_if_absent then
        throwNoSuchMethodNames .nullInstance getter_name (some g.paramNames)
          .topLevelCall .getterT
      else .ok .sentinel
  | none =>
      if throw_nsm_if_absent then
        throwNoSuchMethodNames .nullInstance getter_name none
          .topLevelCall .getterT
      else .ok .sentinel

/-- `InvokeLibraryGetter` (mirrors.cc:478): read a top-level through the
field or the getter function; a regular method found under the plain name
is closurized; an uninitialized field falls back to the getter in the
field's owner class; absence yields NoSuchMethod or the sentinel. -/
def InvokeLibraryGetter (p : Program) (library : LibraryEnt)
    (getter_name : String) (throw_nsm_if_absent : Bool) : Outcome Value :=
  match lookupLocalField library getter_name with
  | none =>
      match lookupLocalFunction p library (getterName getter_name) with
      | none =>
          match lookupLocalFunction p library getter_name with
          | some m => .ok (implicitStaticClosure m)
          | none => libraryGetterTail none getter_name throw_nsm_if_absent
      | some g => libraryGetterTail (some g) getter_name throw_nsm_if_absent
  | some field =>
      if !field.isUninit then .ok field.value
      else
        let getter :=
          match p.findClass field.owner with
          | some klass => lookupStaticFunction p klass (getterName getter_name)
          | none => none
        libraryGetterTail getter getter_name throw_nsm_if_absent

/-- `InvokeLibraryGetterAllowImports` (mirrors.cc:538): the AllowPrivate
variant of `InvokeLibraryGetter`, with the same structure over the
AllowPrivate lookups. -/
def InvokeLibraryGetterAllowImports (p : Program) (library : LibraryEnt)
    (getter_name : String) (throw_nsm_if_absent : Bool) : Outcome Value :=
  match lookupFieldAllowPrivate library getter_name with
  | none =>
      match lookupFunctionAllowPrivate p library (getterName getter_name) with
      | none =>
          match lookupFunctionAllowPrivate p library getter_name with
          | some m => .ok (implicitStaticClosure m)
          | none => libraryGetterTail none getter_name throw_nsm_if_absent
      | some g => libraryGetterTail (some g) getter_name throw_nsm_if_absent
  | some field =>
      if !field.isUninit then .ok field.value
      else
        let getter :=
          match p.findClass field.owner with
          | some klass => lookupStaticFunction p klass (getterName getter_name)
          | none => none
        libraryGetterTail getter getter_name throw_nsm_if_absent

/-- Slow path of `InvokeClassGetter`: the static field was absent or
uninitialized, so consult the static getter function, closurize a regular
static method found under the plain name, and otherwise throw (passing the
getter handle, null or invisible) or return the sentinel. -/
def invokeClassGetterSlow (p : Program) (klass : ClassEnt)
    (getter_name : String) (throw_nsm_if_absent : Bool) : Outcome Value :=
  match lookupStaticFunction p klass (getterName getter_name) with
  | some g =>
      if g.isVisible then returnResult (invokeFunction g)
      else if throw_nsm_if_absent then
        throwNoSuchMethodNames (.rareType klass.id) getter_name
          (some g.paramNames) .staticCall .getterT
      else .ok .sentinel
  | none =>
      match lookupStaticFunction p klass getter_name with
      | some m => .ok (implicitStaticClosure m)
      | none =>
          if throw_nsm_if_absent then
            throwNoSuchMethodNames (.rareType klass.id) getter_name none
              .staticCall .getterT
          else .ok .sentinel

/-- `InvokeClassGetter` (mirrors.cc:598): an initialized static field's
value is read directly; otherwise the slow path runs. -/
def InvokeClassGetter (p : Program) (klass : ClassEnt) (getter_name : String)
    (throw_nsm_if_absent : Bool) : Outcome Value :=
  match lookupStaticField klass getter_name with
  | some field =>
      if field.isUninit then
        invokeClassGetterSlow p klass getter_name throw_nsm_if_absent
      else .ok field.value
  | none => invokeClassGetterSlow p klass getter_name throw_nsm_if_absent

/-- `InvokeInstanceGetter` (mirrors.cc:644): resolve the implicit getter
`get:name` up the receiver's class chain; when found (or when asked to
throw), dispatch through `InvokeDynamicFunction` with the receiver as sole
argument; otherwise return the sentinel. -/
def InvokeInstanceGetter (p : Program) (klass : ClassEnt) (reflectee : Value)
    (getter_name : String) (throw_nsm_if_absent : Bool) : Outcome Value :=
  let internal_getter_name := getterName getter_name
  let function :=
    resolveDynamicAnyArgs p internal_getter_name p.chainFuel (some klass.id)
  if function.isSome || throw_nsm_if_absent then
    invokeDynamicFunction reflectee function internal_getter_name ⟨1, []⟩
  else .ok .sentinel

/-- Result of scanning a closure's context scope: either the index of the
slot whose name matches the lookup name, or no match together with the
index of the last `this` binding seen. -/
inductive CtxScanRes where
  | found (i : Nat)
  | notFound (thisIndex : Option Nat)

/-- The context-slot scan of `LookupFunctionOrFieldInFunctionContext`
(mirrors.cc:742): walk the scope's names in order; the first slot named
`lookup_name` wins; a slot named `this` records its index for the
instance-getter fallback. -/
def ctxScan (lookup_name : String) :
    List String → Nat → Option Nat → CtxScanRes
  | [], _, thisIndex => .notFound thisIndex
  | n :: rest, i, thisIndex =>
      if n == lookup_name then .found i
      else if n == "this" then ctxScan lookup_name rest (i + 1) (some i)
      else ctxScan lookup_name rest (i + 1) thisIndex

/-- `LookupFunctionOrFieldInFunctionContext` (mirrors.cc:733): search the
closure's local context slots; failing that, if a `this` binding was seen,
search the instance the function is attached to through the non-throwing
instance-getter path; otherwise return the sentinel. -/
def LookupFunctionOrFieldInFunctionContext (p : Program)
    (func : FunctionEnt) (ctx : List Value) (lookup_name : String) :
    Outcome Value :=
  match ctxScan lookup_name func.ctxScopeNames 0 none with
  | .found i => .ok (ctx.getD i .nullInstance)
  | .notFound (some this_index) =>
      match p.findClass func.owner with
      | some owner =>
          InvokeInstanceGetter p owner (ctx.getD this_index .nullInstance)
            lookup_name false
      | none => .ok .sentinel
  | .notFound none => .ok .sentinel

/-- The static-method superclass walk of
`LookupStaticFunctionOrFieldInClass` (mirrors.cc:713). -/
def lookupStaticFunctionInChain (p : Program) (lookup_name : String) :
    Nat → Option ClassId → Option FunctionEnt
  | 0, _ => none
  | _, none => none
  | fuel + 1, some cid =>
      match p.findClass cid with
      | none => none
      | some k =>
          match lookupStaticFunction p k lookup_name with
          | some f => some f
          | none => lookupStaticFunctionInChain p lookup_name fuel k.superClass

/-- `LookupStaticFunctionOrFieldInClass` (mirrors.cc:704): first the
non-throwing class-getter path; if it yields the sentinel, closurize a
static method found walking up the superclass chain; otherwise the
sentinel falls through. A thrown condition from the getter propagates. -/
def LookupStaticFunctionOrFieldInClass (p : Program) (klass : ClassEnt)
    (lookup_name : String) : Outcome Value :=
  match InvokeClassGetter p klass lookup_name false with
  | .ok v =>
      if v.isSentinel then
        match lookupStaticFunctionInChain p lookup_name p.chainFuel
            (some klass.id) with
        | some func => .ok (implicitStaticClosure func)
        | none => .ok .sentinel
      else .ok v
  | e => e

/-- `LookupFunctionOrFieldInLibraryPrefix` (mirrors.cc:675): look the name
up through the prefix; a field is read through the non-throwing
AllowImports library getter of the field's owning library, a function is
closurized, anything else falls through to the sentinel. -/
def LookupFunctionOrFieldInLibraryPrefix (p : Program)
    (pr : LibraryPrefixEnt) (lookup_name : String) : Outcome Value :=
  match prefixLookupObject p pr lookup_name with
  | some (.fldE field) =>
      let fieldLibrary :=
        match p.findClass field.owner with
        | some fieldOwner => p.findLibrary fieldOwner.library
        | none => none
      match fieldLibrary with
      | some field_library =>
          match InvokeLibraryGetterAllowImports p field_library lookup_name
              false with
          | .ok v => if v.isSentinel then .ok .sentinel else .ok v
          | e => e
      | none => .ok .sentinel
  | some (.fnE fid) =>
      match p.findFunction fid with
      | some func => .ok (implicitStaticClosure func)
      | none => .ok .sentinel
  | _ => .ok .sentinel

/-- `LookupFunctionOrFieldInLibraryHelper` (mirrors.cc:771): with no class
name, read a top-level through the non-throwing AllowImports getter, then
closurize a local function; with a class name, delegate to the static
class lookup on the named class. -/
def LookupFunctionOrFieldInLibraryHelper (p : Program) (library : LibraryEnt)
    (class_name : Option String) (lookup_name : String) : Outcome Value :=
  match class_name with
  | none =>
      match InvokeLibraryGetterAllowImports p library lookup_name false with
      | .ok v =>
          if v.isSentinel then
            match lookupLocalFunction p library lookup_name with
            | some func => .ok (implicitStaticClosure func)
            | none => .ok .sentinel
          else .ok v
      | e => e
  | some cname =>
      match lookupClassInLibrary p library cname with
      | some cls => LookupStaticFunctionOrFieldInClass p cls lookup_name
      | none => .ok .sentinel

/-- The import loop of `LookupFunctionOrFieldInLibrary` (mirrors.cc:814):
try every directly imported library in import order, stopping at the first
non-sentinel result. -/
def lookupInImports (p : Program) (class_name : Option String)
    (lookup_name : String) : List LibraryId → Outcome Value
  | [] => .ok .sentinel
  | lid :: rest =>
      match p.findLibrary lid with
      | none => lookupInImports p class_name lookup_name rest
      | some lib_it =>
          match LookupFunctionOrFieldInLibraryHelper p lib_it class_name
              lookup_name with
          | .ok v =>
              if v.isSentinel then lookupInImports p class_name lookup_name rest
              else .ok v
          | e => e

/-- `LookupFunctionOrFieldInLibrary` (mirrors.cc:803): check the current
library, then every directly imported library in import order; the first
non-sentinel result wins, and the sentinel falls through. -/
def LookupFunctionOrFieldInLibrary (p : Program) (library : LibraryEnt)
    (class_name : Option String) (lookup_name : String) : Outcome Value :=
  match LookupFunctionOrFieldInLibraryHelper p library class_name
      lookup_name with
  | .ok v =>
      if v.isSentinel then
        lookupInImports p class_name lookup_name library.imports
      else .ok v
  | e => e

/-- The tuple conversion at the end of `ClosureMirror_find_in_context`
(mirrors.cc:1401): a two-slot list whose first slot is false exactly when
the lookup produced the sentinel (leaving the value slot at its default
null), and otherwise true with the found value. -/
def findInContextTuple : Outcome Value → Outcome (Bool × Value)
  | .ok v =>
      if v.isSentinel then .ok (false, .nullInstance) else .ok (true, v)
  | .noSuchMethod r n t pn => .noSuchMethod r n t pn
  | .mce m => .mce m
  | .err m => .err m

/-- `ClosureMirror_find_in_context` (mirrors.cc:1343). The closure's
function and context are passed directly (the native extracts them from
the closure instance via `Instance::IsCallable` and `Closure::context`).
For a single-part name the cascade is: context slots, then static members
of the enclosing class, then the enclosing library and its imports; for
two parts, a library prefix or a class of the current library; for three
parts, a class reached through a library prefix. -/
def ClosureMirror_find_in_context (p : Program) (fid : FunctionId)
    (ctx : List Value) (lookup_parts : List String) :
    Outcome (Bool × Value) :=
  match p.findFunction fid with
  | none => .err "closure is not callable"
  | some function =>
      let parts_len := lookup_parts.length
      let lookup_name := (lookup_parts.getLast?).getD ""
      match p.findClass function.owner with
      | none => .err "function has no owner"
      | some owner =>
          match p.findLibrary owner.library with
          | none => .err "owner has no library"
          | some this_library =>
              let result : Outcome Value :=
                if parts_len == 1 then
                  match LookupFunctionOrFieldInFunctionContext p function ctx
                      lookup_name with
                  | .ok v1 =>
                      if v1.isSentinel then
                        match LookupStaticFunctionOrFieldInClass p owner
                            lookup_name with
                        | .ok v2 =>
                            if v2.isSentinel then
                              LookupFunctionOrFieldInLibrary p this_library
                                none lookup_name
                            else .ok v2
                        | e2 => e2
                      else .ok v1
                  | e1 => e1
                else if parts_len == 2 then
                  let part_name := (lookup_parts.get? 0).getD ""
                  match lookupLocalLibraryPrefix this_library part_name with
                  | none =>
                      LookupFunctionOrFieldInLibrary p this_library
                        (some part_name) lookup_name
                  | some prefx =>
                      LookupFunctionOrFieldInLibraryPrefix p prefx lookup_name
                else
                  let part_name := (lookup_parts.get? 0).getD ""
                  match lookupLocalLibraryPrefix this_library part_name with
                  | some prefx =>
                      let cls_name := (lookup_parts.get? 1).getD ""
                      match prefixLookupClass p prefx cls_name with
                      | some cls =>
                          LookupStaticFunctionOrFieldInClass p cls lookup_name
                      | none => .ok .sentinel
                  | none => .ok .sentinel
              findInContextTuple result

/-- The referent wrapped by a `MirrorReference`: exactly one of a class,
function, field, library, or type parameter entity. -/
inductive Referent where
  | clsRef (cid : ClassId)
  | fnRef (fid : FunctionId)
  | fldRef (fldId : Nat)
  | libRef (lid : LibraryId)
  | typeParamRef (name : String)
  deriving DecidableEq

/-- A `MirrorReference`: an opaque capsule wrapping one entity. -/
structure MirrorReference where
  referent : Referent
  deriving DecidableEq

/-- `MirrorReference_equals` (mirrors.cc:879): reference identity of the
wrapped entity (`a.referent() == b.referent()`), not structural
comparison of the mirrors built over it. -/
def MirrorReference_equals (a b : MirrorReference) : Bool :=
  a.referent == b.referent

/-- The mirror objects the factory produces, as structured records of the
constructor arguments each `CreateMirror` call passes to the Dart-side
mirror class. Owner mirrors are threaded as opaque instances (`Value`). -/
inductive Mirror where
  | classMirror (ref : MirrorReference) (type : AbstractType)
      (name : Option String) (isGeneric : Bool) (isMixinTypedefM : Bool)
      (isOriginalDeclaration : Bool)
  | functionTypeMirror (ref : MirrorReference) (type : AbstractType)
  | typedefMirror (ref : MirrorReference) (name : String) (owner : Value)
  | specialTypeMirror (name : String)
  | typeVariableMirror (name : String) (owner : Value)
  | methodMirror (ref : MirrorReference) (name : String) (owner : Value)
      (isStatic isAbstract isGetter isSetter isCtor isConstCtor
       isGenerativeCtor isRedirectingCtor isFactoryCtor : Bool)
  | variableMirror (ref : MirrorReference) (name : String) (owner : Value)
      (isStatic : Bool) (isFinal : Bool)

/-- The `MirrorReference` a mirror carries in its referent slot, when it
has one (`specialTypeMirror` and `typeVariableMirror` have none). -/
def Mirror.mirrorRef : Mirror → Option MirrorReference
  | .classMirror ref _ _ _ _ _ => some ref
  | .functionTypeMirror ref _ => some ref
  | .typedefMirror ref _ _ => some ref
  | .specialTypeMirror _ => none
  | .typeVariableMirror _ _ => none
  | .methodMirror ref _ _ _ _ _ _ _ _ _ _ _ => some ref
  | .variableMirror ref _ _ _ _ => some ref

/-- Re-derive a class from a mirror reference
(`MirrorReference::GetClassReferent`). -/
def getClassReferent (r : MirrorReference) : Option ClassId :=
  match r.referent with
  | .clsRef cid => some cid
  | _ => none

/-- `CreateTypedefMirror` (mirrors.cc:237). -/
def CreateTypedefMirror (cls : ClassEnt) (owner_mirror : Value) : Mirror :=
  .typedefMirror ⟨.clsRef cls.id⟩ cls.name owner_mirror

/-- `CreateFunctionTypeMirror` (mirrors.cc:247). -/
def CreateFunctionTypeMirror (cls : ClassEnt) (type : AbstractType) :
    Mirror :=
  .functionTypeMirror ⟨.clsRef cls.id⟩ type

/-- `CreateClassMirror` (mirrors.cc:317): canonical signature classes
become function-type mirrors and non-canonical ones typedef mirrors,
before the generic class-mirror construction; anonymous mixin
applications omit their synthetic name; the is-original-declaration slot
is forced false for non-generic classes. -/
def CreateClassMirror (cls : ClassEnt) (type : AbstractType)
    (is_declaration : Bool) (owner_mirror : Value) : Mirror :=
  if cls.isSignatureClass then
    if cls.isCanonicalSignatureClass then CreateFunctionTypeMirror cls type
    else CreateTypedefMirror cls owner_mirror
  else
    .classMirror ⟨.clsRef cls.id⟩ type
      (if !cls.isMixinApplication || cls.isMixinTypedefC then some cls.name
       else none)
      (cls.numTypeParameters != 0)
      cls.isMixinTypedefC
      (if cls.numTypeParameters == 0 then false else is_declaration)

/-- `CreateMethodMirror` (mirrors.cc:256). The pretty-name conversion
(`String::IdentifierPrettyNameRetainPrivate`, object.cc) is outside the
sources and modelled as the identity. -/
def CreateMethodMirror (func : FunctionEnt) (owner_mirror : Value) :
    Mirror :=
  let isCtor := func.kind = .constructorF
  .methodMirror ⟨.fnRef func.id⟩ func.name owner_mirror
    func.isStatic func.isAbstract (func.kind = .getterF)
    (func.kind = .setterF) isCtor (isCtor && func.isConst)
    (isCtor && func.isGenerativeConstructor)
    (isCtor && func.isRedirecting) (isCtor && func.isFactoryFn)

/-- `CreateVariableMirror` (mirrors.cc:282). -/
def CreateVariableMirror (field : FieldEnt) (owner_mirror : Value) :
    Mirror :=
  .variableMirror ⟨.fldRef field.id⟩ field.name owner_mirror
    field.isStatic field.isFinal

/-- `Object::dynamic_type()`: the type over the dynamic class with no
argument vector. -/
def dynamicType (p : Program) : AbstractType :=
  .type p.dynamicCid none

/-- `CreateTypeMirror` (mirrors.cc:366): void and dynamic become special
singleton-like type mirrors distinguished by name; a resolved class
becomes a (non-declaration) class mirror; a type parameter becomes a type
variable mirror; a bounded type is unwrapped. A dangling class id (never
produced by the VM) yields none. -/
def CreateTypeMirror (p : Program) : AbstractType → Option Mirror
  | .type cid args =>
      match p.findClass cid with
      | none => none
      | some cls =>
          if cls.isVoidClass then some (.specialTypeMirror "void")
          else if cls.isDynamicClass then some (.specialTypeMirror "dynamic")
          else
            some (CreateClassMirror cls (.type cid args) false .nullInstance)
  | .typeParameter name => some (.typeVariableMirror name .nullInstance)
  | .boundedType inner => CreateTypeMirror p inner

/-- The type class of an `AbstractType`, when resolved. -/
def AbstractType.typeClass : AbstractType → Option ClassId
  | .type cid _ => some cid
  | _ => none

/-- The argument vector of an `AbstractType` (`AbstractType::arguments`);
absent both for non-class types and for optimized-away vectors. -/
def AbstractType.typeArguments : AbstractType → Option (List AbstractType)
  | .type _ args => args
  | _ => none

/-- The mirror-construction loop of `ClassMirror_type_arguments`
(mirrors.cc:1188): starting at parameter index `i` with `remaining`
parameters left, read `args[num_inherited + i]` and mirror it. An
out-of-range read (which the source excludes by assertion) or a failed
mirror construction yields none. -/
def typeArgMirrorsFrom (p : Program) (args : List AbstractType)
    (num_inherited : Nat) : Nat → Nat → Option (List Mirror)
  | _, 0 => some []
  | i, remaining + 1 =>
      match args.get? (num_inherited + i) with
      | none => none
      | some arg_type =>
          match CreateTypeMirror p arg_type with
          | none => none
          | some m =>
              match typeArgMirrorsFrom p args num_inherited (i + 1)
                  remaining with
              | none => none
              | some rest => some (m :: rest)

/-- `ClassMirror_type_arguments` (mirrors.cc:1158): no type parameters
gives the empty list; an absent argument vector gives the declared count
of `dynamic` type mirrors; otherwise the last `num_params` arguments (the
non-inherited ones) are mirrored in order. -/
def ClassMirror_type_arguments (p : Program) (type : AbstractType) :
    Option (List Mirror) :=
  match type with
  | .type cid targs =>
      match p.findClass cid with
      | none => none
      | some cls =>
          let num_params := cls.numTypeParameters
          if num_params == 0 then some []
          else
            match targs with
            | none =>
                (CreateTypeMirror p (dynamicType p)).map
                  (List.replicate num_params)
            | some args =>
                let num_inherited_args := args.length - num_params
                typeArgMirrorsFrom p args num_inherited_args 0 num_params
  | _ => none

/-- The rare (default) type of a class (`Class::RareType`): the class with
no explicit type arguments. -/
def rareTypeOf (k : ClassEnt) : AbstractType :=
  .type k.id none

/-- The mirrors `LibraryMirror_members` (mirrors.cc:1100) produces for one
dictionary entry: classes are filtered (canonical signature classes,
dynamic, and implementation classes are skipped), fields always yield a
variable mirror, and functions yield a method mirror exactly for the
regular/getter/setter kinds. A dangling id (never produced by the VM)
yields nothing. -/
def memberMirrorsOfEntry (p : Program) (owner_mirror : Value) :
    DictEntry → List Mirror
  | .clsE cid =>
      match p.findClass cid with
      | none => []
      | some klass =>
          if !klass.isCanonicalSignatureClass && !klass.isDynamicClass &&
              !klass.isImplementation then
            [CreateClassMirror klass (rareTypeOf klass) true owner_mirror]
          else []
  | .fldE field => [CreateVariableMirror field owner_mirror]
  | .fnE fid =>
      match p.findFunction fid with
      | none => []
      | some func =>
          if func.kind = .regularF || func.kind = .getterF ||
              func.kind = .setterF then
            [CreateMethodMirror func owner_mirror]
          else []

/-- `LibraryMirror_members` (mirrors.cc:1100): iterate the library's
dictionary in order, collecting the member mirrors of each entry. -/
def LibraryMirror_members (p : Program) (owner_mirror : Value)
    (library : LibraryEnt) : List Mirror :=
  (library.dictionary.map (memberMirrorsOfEntry p owner_mirror)).flatten

/-- Observable state changes performed by a reflective native: invoking a
resolved function with an argument vector, storing into a static or
top-level field, and allocating a fresh instance (with its type-argument
vector, when one is set). -/
inductive Effect where
  | invokedFn (fid : FunctionId) (args : List Value)
  | setStaticField (cid : ClassId) (fname : String) (v : Value)
  | setLibraryField (lid : LibraryId) (fname : String) (v : Value)
  | allocated (cid : ClassId) (targs : Option (List AbstractType))

/-- The class of a receiver value (`Instance::clazz()`), for the values
that carry one. -/
def classOfValue : Value → Option ClassId
  | .inst cid _ => some cid
  | .freshInstance cid => some cid
  | _ => none

/-- Result of the setter-resolution walk in `InstanceMirror_invokeSetter`:
a final instance field found first, a dynamic setter function found
first, or neither up the whole chain. -/
inductive SetterSearch where
  | finalField (f : FieldEnt)
  | foundSetter (f : FunctionEnt)
  | notFoundS

/-- The class-chain walk of `InstanceMirror_invokeSetter`
(mirrors.cc:1282): at each class, a final instance field named
`setter_name` aborts the walk; otherwise a dynamic function named
`set:setter_name` ends it; otherwise the walk continues at the
superclass. -/
def instanceSetterSearch (p : Program) (setter_name iname : String) :
    Nat → Option ClassId → SetterSearch
  | 0, _ => .notFoundS
  | _, none => .notFoundS
  | fuel + 1, some cid =>
      match p.findClass cid with
      | none => .notFoundS
      | some klass =>
          let fieldHit :=
            match lookupInstanceField klass setter_name with
            | some field => if field.isFinal then some field else none
            | none => none
          match fieldHit with
          | some field => .finalField field
          | none =>
              match lookupDynamicFunction p klass iname with
              | some setter => .foundSetter setter
              | none =>
                  instanceSetterSearch p setter_name iname fuel
                    klass.superClass

/-- `InvokeDynamicFunction` with its effect on the world: a successful
dispatch records the invocation of the resolved function. -/
def invokeDynamicWithEffects (receiver : Value)
    (function : Option FunctionEnt) (targetName : String)
    (args : List Value) (desc : ArgsDesc) : Outcome Value × List Effect :=
  match function with
  | some f =>
      if f.isVisible && areValidArguments f desc then
        (returnResult (invokeFunction f), [.invokedFn f.id args])
      else (invokeNoSuchMethodOutcome receiver targetName, [])
  | none => (invokeNoSuchMethodOutcome receiver targetName, [])

/-- `InstanceMirror_invokeSetter` (mirrors.cc:1267): walk the receiver's
class chain; a final field of that name raises MirroredCompilationError
before anything is invoked; otherwise the resolved setter (or
`noSuchMethod`) is dispatched with the receiver and the value. -/
def InstanceMirror_invokeSetter (p : Program) (reflectee : Value)
    (setter_name : String) (value : Value) : Outcome Value × List Effect :=
  let internal_setter_name := setterName setter_name
  let search :=
    instanceSetterSearch p setter_name internal_setter_name p.chainFuel
      (classOfValue reflectee)
  match search with
  | .finalField _ =>
      (.mce ("InstanceMirror_invokeSetter: cannot set final field " ++
        setter_name ++ "."), [])
  | .foundSetter setter =>
      invokeDynamicWithEffects reflectee (some setter) internal_setter_name
        [reflectee, value] ⟨2, []⟩
  | .notFoundS =>
      invokeDynamicWithEffects reflectee none internal_setter_name
        [reflectee, value] ⟨2, []⟩

/-- `ClassMirror_invokeSetter` (mirrors.cc:1479): with no static field of
that name, a visible static setter function is invoked (else
NoSuchMethod); with a field, a final one raises
MirroredCompilationError, otherwise the field is stored. -/
def ClassMirror_invokeSetter (p : Program) (klass : ClassEnt)
    (setter_name : String) (value : Value) : Outcome Value × List Effect :=
  match lookupStaticField klass setter_name with
  | none =>
      match lookupStaticFunction p klass (setterName setter_name) with
      | some setter =>
          if setter.isVisible then
            (returnResult (invokeFunction setter),
             [.invokedFn setter.id [value]])
          else
            (throwNoSuchMethodNames (.rareType klass.id) setter_name
              (some setter.paramNames) .staticCall .setterT, [])
      | none =>
          (throwNoSuchMethodNames (.rareType klass.id) setter_name none
            .staticCall .setterT, [])
  | some field =>
      if field.isFinal then
        (.mce ("ClassMirror_invokeSetter: cannot set final field " ++
          setter_name ++ "."), [])
      else (.ok value, [.setStaticField klass.id setter_name value])

/-- `LibraryMirror_invokeSetter` (mirrors.cc:1722): the top-level
analogue of `ClassMirror_invokeSetter`. -/
def LibraryMirror_invokeSetter (p : Program) (library : LibraryEnt)
    (setter_name : String) (value : Value) : Outcome Value × List Effect :=
  match lookupLocalField library setter_name with
  | none =>
      match lookupLocalFunction p library (setterName setter_name) with
      | some setter =>
          if setter.isVisible then
            (returnResult (invokeFunction setter),
             [.invokedFn setter.id [value]])
          else
            (throwNoSuchMethodNames .nullInstance setter_name
              (some setter.paramNames) .topLevelCall .setterT, [])
      | none =>
          (throwNoSuchMethodNames .nullInstance setter_name none
            .topLevelCall .setterT, [])
  | some field =>
      if field.isFinal then
        (.mce ("LibraryMirror_invokeSetter: cannot set final top-level variable "
          ++ setter_name ++ "."), [])
      else (.ok value, [.setLibraryField library.id setter_name value])

/-- `ClassMirror_invoke` (mirrors.cc:1429): invoke a static function; a
missing, argument-incompatible, or invisible function throws NoSuchMethod
with the class's rare type as receiver, carrying the function's parameter
names when it was found. -/
def ClassMirror_invoke (p : Program) (klass : ClassEnt)
    (function_name : String) (args : List Value) (arg_names : List String) :
    Outcome Value :=
  let desc : ArgsDesc := ⟨args.length, arg_names⟩
  match lookupStaticFunction p klass function_name with
  | none =>
      throwNoSuchMethodNames (.rareType klass.id) function_name none
        .staticCall .methodT
  | some function =>
      if !areValidArguments function desc || !function.isVisible then
        throwNoSuchMethodNames (.rareType klass.id) function_name
          (some function.paramNames) .staticCall .methodT
      else returnResult (invokeFunction function)

/-- `LibraryMirror_invoke` (mirrors.cc:1672): invoke a top-level
function; failures throw NoSuchMethod with the null instance as
receiver. -/
def LibraryMirror_invoke (p : Program) (library : LibraryEnt)
    (function_name : String) (args : List Value) (arg_names : List String) :
    Outcome Value :=
  let desc : ArgsDesc := ⟨args.length, arg_names⟩
  match lookupLocalFunction p library function_name with
  | none =>
      throwNoSuchMethodNames .nullInstance function_name none
        .topLevelCall .methodT
  | some function =>
      if !areValidArguments function desc || !function.isVisible then
        throwNoSuchMethodNames .nullInstance function_name
          (some function.paramNames) .topLevelCall .methodT
      else returnResult (invokeFunction function)

/-- `InstanceMirror_invoke` (mirrors.cc:1231): resolve the name up the
receiver's class chain and dispatch; `args` is already the internal
argument vector with the receiver as first element. -/
def InstanceMirror_invoke (p : Program) (reflectee : Value)
    (function_name : String) (args : List Value)
    (arg_names : List String) : Outcome Value :=
  let function :=
    resolveDynamicAnyArgs p function_name p.chainFuel
      (classOfValue reflectee)
  invokeDynamicFunction reflectee function function_name
    ⟨args.length, arg_names⟩

/-- `Function::kCtorPhaseAll`: the constructor phase passed as the second
implicit argument of a generative constructor (the constant lives in
object.h, outside the sources; its numeric value is irrelevant here). -/
def kCtorPhaseAll : Int := 3

/-- The redirection data of a redirecting factory after
`ClassFinalizer::ResolveRedirectingFactory` (class_finalizer.cc is outside
the sources): the resolution and the instantiation of the redirection
type are modelled as reading the function's pre-resolved redirection
data, which the lazy fill only caches (the spec calls the fill idempotent
and transparent). -/
def redirectionData (p : Program) (lc : FunctionEnt) :
    Option (FunctionEnt × ClassId × Option (List AbstractType)) :=
  match lc.redirectionTypeF, lc.redirectionTargetF with
  | some rt, some rtid =>
      match rt.typeClass, p.findFunction rtid with
      | some rcid, some rc => some (rc, rcid, rt.typeArguments)
      | _, _ => none
  | _, _ => none

/-- `ClassMirror_invokeConstructor` (mirrors.cc:1533): look up `Klass.name`
among the class's functions; reject non-constructors, invisible functions
and bad argument shapes with NoSuchMethod (deliberately passing a null
function so the error matches the non-reflective case); resolve a
redirecting factory; only then allocate for a generative constructor
(which receives the fresh instance and the constructor phase) or pass the
type-argument vector to a factory, and invoke. -/
def ClassMirror_invokeConstructor (p : Program) (klass : ClassEnt)
    (type : AbstractType) (constructor_name : String)
    (explicit_args : List Value) (arg_names : List String) :
    Outcome Value × List Effect :=
  let internal_constructor_name := klass.name ++ "." ++ constructor_name
  match lookupFunction p klass internal_constructor_name with
  | none =>
      (throwNoSuchMethodNames (.rareType klass.id) internal_constructor_name
        none .constructorCall .methodT, [])
  | some lookup_constructor =>
      if !(lookup_constructor.isGenerativeConstructor ||
           lookup_constructor.isFactoryFn) ||
          !lookup_constructor.isVisible then
        (throwNoSuchMethodNames (.rareType klass.id)
          internal_constructor_name none .constructorCall .methodT, [])
      else
        let type_arguments := type.typeArguments
        let redirected :=
          if lookup_constructor.isRedirectingFactoryF then
            redirectionData p lookup_constructor
          else some (lookup_constructor, klass.id, type_arguments)
        match redirected with
        | none => (.err "unresolved redirecting factory", [])
        | some (redirected_constructor, redirected_klass, targs) =>
            let num_implicit_args :=
              if redirected_constructor.isGenerativeConstructor then 2 else 1
            let desc : ArgsDesc :=
              ⟨num_implicit_args + explicit_args.length, arg_names⟩
            if !areValidArguments redirected_constructor desc ||
                !redirected_constructor.isVisible then
              (throwNoSuchMethodNames (.rareType klass.id)
                internal_constructor_name none .constructorCall .methodT, [])
            else if redirected_constructor.isGenerativeConstructor then
              let new_object := Value.freshInstance redirected_klass
              let args :=
                new_object :: Value.smi kCtorPhaseAll :: explicit_args
              let effects : List Effect :=
                [.allocated redirected_klass targs,
                 .invokedFn redirected_constructor.id args]
              match invokeFunction redirected_constructor with
              | .val _ => (.ok new_object, effects)
              | .errv e => (throwInvokeError e, effects)
            else
              let args := Value.typeArgsV targs :: explicit_args
              let effects : List Effect :=
                [.invokedFn redirected_constructor.id args]
              match invokeFunction redirected_constructor with
              | .val v => (.ok v, effects)
              | .errv e => (throwInvokeError e, effects)

/-- Mark a function as compiled (`Compiler::CompileFunction` succeeded):
the function's entry in the global table gains code; nothing else
changes. -/
def markHasCode (p : Program) (fid : FunctionId) : Program :=
  { p with
    functions := p.functions.map fun f =>
      if f.id == fid then { f with hasCode := true } else f }

/-- Mark a class as finalized (`Class::EnsureIsFinalized` succeeded):
the class's entry in the global table becomes finalized; nothing else
changes. -/
def markFinalized (p : Program) (cid : ClassId) : Program :=
  { p with
    classes := p.classes.map fun c =>
      if c.id == cid then { c with isFinalized := true } else c }

/-- `Class::EnsureIsFinalized`: a finalized class is untouched; otherwise
finalization either fails with the class's pending error or marks the
class finalized. -/
def ensureIsFinalized (p : Program) (cls : ClassEnt) : Outcome Program :=
  if cls.isFinalized then .ok p
  else
    match cls.finalizeError with
    | some e => throwInvokeError e
    | none => .ok (markFinalized p cls.id)

/-- `EnsureConstructorsAreCompiled` (mirrors.cc:109): a non-constructor is
untouched; for a constructor, the owning class is finalized and, if the
function has no code yet, it is compiled; errors are rethrown through
`ThrowInvokeError`. -/
def EnsureConstructorsAreCompiled (p : Program) (fid : FunctionId) :
    Outcome Program :=
  match p.findFunction fid with
  | none => .ok p
  | some func =>
      if func.kind != .constructorF then .ok p
      else
        match p.findClass func.owner with
        | none => .ok p
        | some cls =>
            match ensureIsFinalized p cls with
            | .ok p1 =>
                if func.hasCode then .ok p1
                else
                  match func.compileError with
                  | some e => throwInvokeError e
                  | none => .ok (markHasCode p1 fid)
            | .noSuchMethod r n t pn => .noSuchMethod r n t pn
            | .mce m => .mce m
            | .err m => .err m

/-- A parameter mirror as `CreateParameterMirrorList` builds it: name,
position, optional/named flags derived from the position, and the
final-ness, default value and metadata from the reflective reparse. -/
structure ParamMirror where
  name : String
  pos : Nat
  isOptional : Bool
  isNamed : Bool
  isFinal : Bool
  defaultValue : Value
  metadata : Value

/-- The parameter-mirror construction loop of `CreateParameterMirrorList`
(mirrors.cc:175), over the reparsed descriptor. -/
def buildParamMirrors (func : FunctionEnt) (implicit_param_count : Nat)
    (non_implicit_param_count idx_first_optional idx_first_named : Nat)
    (descr : List ParamDesc) : List ParamMirror :=
  (List.range non_implicit_param_count).map fun i =>
    let d := (descr.get? i).getD ⟨false, .nullInstance, .nullInstance⟩
    { name := (func.paramNames.get? (implicit_param_count + i)).getD ""
      pos := i
      isOptional := decide (idx_first_optional ≤ i)
      isNamed := decide (idx_first_named ≤ i)
      isFinal := d.isFinal
      defaultValue := d.defaultValue
      metadata := d.metadata }

/-- `CreateParameterMirrorList` (mirrors.cc:126): getters and implicit
constructors/getters/setters reflect an empty parameter list; otherwise
constructors are force-compiled first (the lazy fill), the function is
reparsed for default values, final-ness and metadata
(`Parser::ParseFunctionParameters`, modelled by the function's reparse
data), and the parameter mirrors are built. Returns the mirrors together
with the (possibly lazily filled) program. -/
def CreateParameterMirrorList (p : Program) (fid : FunctionId) :
    Outcome (List ParamMirror × Program) :=
  match p.findFunction fid with
  | none => .ok ([], p)
  | some func =>
      let implicit_param_count := func.numImplicitParams
      let non_implicit_param_count :=
        func.paramNames.length - implicit_param_count
      let index_of_first_optional_param :=
        non_implicit_param_count - func.numOptionalParams
      let index_of_first_named_param :=
        non_implicit_param_count - func.numOptionalNamedParams
      if func.kind = .getterF || func.isImplicitConstructor ||
          func.isImplicitGetter || func.isImplicitSetter then
        .ok ([], p)
      else
        match EnsureConstructorsAreCompiled p fid with
        | .ok p1 =>
            match func.parseError with
            | some e => throwInvokeError e
            | none =>
                .ok (buildParamMirrors func implicit_param_count
                  non_implicit_param_count index_of_first_optional_param
                  index_of_first_named_param func.paramDescriptors, p1)
        | .noSuchMethod r n t pn => .noSuchMethod r n t pn
        | .mce m => .mce m
        | .err m => .err m

end DartVM

namespace DartDebugger

/-- A `CodeBreakpoint` (vm/debugger.h:68) as the unlink pass observes it:
its stable identity, the back-reference to its owning `SourceBreakpoint`
(none for internal one-shot stepping breakpoints), and its enabled
state. -/
structure CodeBreakpointM where
  id : Nat
  srcBpt : Option Nat
  isEnabled : Bool
  deriving DecidableEq

/-- `CodeBreakpoint::IsInternal` (vm/debugger.h:76): a code breakpoint is
internal exactly when its `src_bpt_` back-reference is null. -/
def CodeBreakpointM.IsInternal (cb : CodeBreakpointM) : Bool :=
  cb.srcBpt.isNone

/-- Modelled from the spec: `Debugger::UnlinkCodeBreakpoints` is declared
in vm/debugger.h:366 but its body (vm/debugger.cc) is not among the
sources; per the spec, removing a SourceBreakpoint must unlink and
disable every CodeBreakpoint that references it and must not disturb
CodeBreakpoints used internally for stepping. Each matching breakpoint is
disabled and its back-reference cleared; every other breakpoint is left
untouched. -/
def unlinkCodeBreakpoints (cbs : List CodeBreakpointM) (srcId : Nat) :
    List CodeBreakpointM :=
  cbs.map fun cb =>
    if cb.srcBpt == some srcId then
      { cb with isEnabled := false, srcBpt := none }
    else cb

end DartDebugger

namespace DartVM

/-- The short-circuiting composition of two lookup stages: a stage's
non-sentinel result (or a thrown condition) is final, and only the
sentinel consults the next stage. -/
def cascadeLookup (first second : Outcome Value) : Outcome Value :=
  match first with
  | .ok v => if v.isSentinel then second else .ok v
  | e => e

/-- A baseline function entity for building concrete test programs. -/
def baseFn : FunctionEnt :=
  { id := 0, name := "", kind := .regularF, isStatic := false,
    isVisible := true, hasCode := true, owner := 0, paramNames := [],
    numImplicitParams := 0, numOptionalParams := 0,
    numOptionalNamedParams := 0, isAbstract := false, isConst := false,
    isRedirecting := false, isImplicitConstructor := false,
    isImplicitGetter := false, isImplicitSetter := false,
    isRedirectingFactoryF := false, redirectionTypeF := none,
    redirectionTargetF := none, compileError := none, parseError := none,
    paramDescriptors := [], invokeResult := .val .nullInstance,
    validArgShapes := [], ctxScopeNames := [] }

/-- A baseline class entity for building concrete test programs. -/
def baseClass : ClassEnt :=
  { id := 0, name := "", superClass := none, library := 0, fields := [],
    functionIds := [], isDynamicClass := false, isVoidClass := false,
    isSignatureClass := false, isCanonicalSignatureClass := false,
    isImplementation := false, isMixinApplication := false,
    isMixinTypedefC := false, numTypeParameters := 0, isFinalized := true,
    finalizeError := none }

/-- A baseline field entity for building concrete test programs. -/
def baseField : FieldEnt :=
  { id := 0, name := "", isStatic := false, isFinal := false,
    isUninit := false, value := .nullInstance, owner := 0 }

/-- A baseline library entity for building concrete test programs. -/
def baseLib : LibraryEnt :=
  { id := 0, name := "", url := "", dictionary := [], imports := [],
    prefixes := [] }

/-- C1 test data: the closure's function, owning class and library. The
library also declares a top-level field named `x`, shadowed by the
context slot of the same name. -/
def fnW1 : FunctionEnt :=
  { baseFn with
    id := 10, name := "clo", owner := 1,
    ctxScopeNames := ["x"] }

/-- C1 test data: the enclosing class. -/
def clsW1 : ClassEnt :=
  { baseClass with
    id := 1, name := "A", library := 0 }

/-- C1 test data: the enclosing library, with a same-named top-level. -/
def libW1 : LibraryEnt :=
  { baseLib with
    id := 0,
    dictionary := [.fldE { baseField with
    id := 30, name := "x",
      isStatic := true, value := .inst 1 99, owner := 1 }] }

/-- C1 test data: the whole program. -/
def pW1 : Program :=
  { classes := [clsW1], functions := [fnW1], libraries := [libW1],
    dynamicCid := 99 }

/-- C2 test data: a class with a final instance field and a final static
field. -/
def clsW2 : ClassEnt :=
  { baseClass with
    id := 2, name := "B", library := 4,
    fields :=
      [{ baseField with
    id := 40, name := "fi", isFinal := true,
         owner := 2 },
       { baseField with
    id := 41, name := "fs", isStatic := true,
         isFinal := true, owner := 2 }] }

/-- C2 test data: a library with a final top-level field. -/
def libW2 : LibraryEnt :=
  { baseLib with
    id := 4,
    dictionary := [.fldE { baseField with
    id := 42, name := "ft",
      isStatic := true, isFinal := true, owner := 2 }] }

/-- C2 test data: the whole program. -/
def pW2 : Program :=
  { classes := [clsW2], functions := [], libraries := [libW2],
    dynamicCid := 99 }

/-- C3 test data: a library whose only top-level field legitimately holds
null. -/
def libW3 : LibraryEnt :=
  { baseLib with
    id := 0,
    dictionary := [.fldE { baseField with
    id := 50, name := "n",
      isStatic := true, value := .nullInstance, owner := 3 }] }

/-- C3 test data: the whole program. -/
def pW3 : Program :=
  { classes := [{ baseClass with
    id := 3, library := 0 }], functions := [],
    libraries := [libW3], dynamicCid := 99 }

/-- C4 test data: the dynamic class. -/
def dynClsW4 : ClassEnt :=
  { baseClass with
    id := 99, name := "dynamic", isDynamicClass := true }

/-- C4 test data: a generic class with two type parameters. -/
def boxClsW4 : ClassEnt :=
  { baseClass with
    id := 1, name := "Box", numTypeParameters := 2 }

/-- C4 test data: a non-generic class. -/
def emptyClsW4 : ClassEnt :=
  { baseClass with
    id := 2, name := "Empty" }

/-- C4 test data: the whole program. -/
def pW4 : Program :=
  { classes := [dynClsW4, boxClsW4, emptyClsW4], functions := [],
    libraries := [], dynamicCid := 99 }

/-- C5 counterexample data: a visible generative constructor `K.` with
three formal parameter names, accepting exactly the two implicit
arguments (so any explicit argument is a shape mismatch). -/
def ctorC5 : FunctionEnt :=
  { baseFn with
    id := 21, name := "K.", kind := .constructorF, owner := 5,
    paramNames := ["this", "phase", "x"], validArgShapes := [(2, [])] }

/-- C5 counterexample data: the class owning the constructor. -/
def klassC5 : ClassEnt :=
  { baseClass with
    id := 5, name := "K", functionIds := [21] }

/-- C5 counterexample data: the whole program. -/
def pC5 : Program :=
  { classes := [klassC5], functions := [ctorC5], libraries := [],
    dynamicCid := 99 }

/-- C5 amended-claim test data: a static function of the wrong shape. -/
def statFnC5 : FunctionEnt :=
  { baseFn with
    id := 22, name := "sm", isStatic := true, owner := 5,
    paramNames := ["a"], validArgShapes := [(1, [])] }

/-- C5 amended-claim test data: a class with that static function. -/
def klassC5b : ClassEnt :=
  { baseClass with
    id := 6, name := "S", functionIds := [22] }

/-- C5 amended-claim test data: the whole program. -/
def pC5b : Program :=
  { classes := [klassC5b], functions := [statFnC5], libraries := [],
    dynamicCid := 99 }

/-- C6 counterexample data: a non-canonical signature class (a typedef)
sitting in a library dictionary. -/
def typedefClsC6 : ClassEnt :=
  { baseClass with
    id := 7, name := "F", isSignatureClass := true,
    isCanonicalSignatureClass := false, library := 0 }

/-- C6 counterexample data: the library declaring the typedef. -/
def libC6 : LibraryEnt :=
  { baseLib with
    id := 0, dictionary := [.clsE 7] }

/-- C6 counterexample data: the whole program. -/
def pC6 : Program :=
  { classes := [typedefClsC6], functions := [], libraries := [libC6],
    dynamicCid := 99 }

/-- C6 amended-claim test data: an ordinary class. -/
def plainClsC6 : ClassEnt :=
  { baseClass with
    id := 8, name := "P", library := 1 }

/-- C6 amended-claim test data: a canonical signature class, which must be
filtered out. -/
def canonClsC6 : ClassEnt :=
  { baseClass with
    id := 9, name := "Sig", isSignatureClass := true,
    isCanonicalSignatureClass := true, library := 1 }

/-- C6 amended-claim test data: a regular top-level function. -/
def fnC6 : FunctionEnt :=
  { baseFn with
    id := 60, name := "top", isStatic := true, owner := 8 }

/-- C6 amended-claim test data: a top-level field. -/
def fldC6 : FieldEnt :=
  { baseField with
    id := 61, name := "v", isStatic := true, owner := 8 }

/-- C6 amended-claim test data: the library with all of the above. -/
def libC6b : LibraryEnt :=
  { baseLib with
    id := 1,
    dictionary := [.clsE 8, .clsE 9, .fldE fldC6, .fnE 60] }

/-- C6 amended-claim test data: the whole program. -/
def pC6b : Program :=
  { classes := [plainClsC6, canonClsC6], functions := [fnC6],
    libraries := [libC6b], dynamicCid := 99 }

/-- C7 test data: an ordinary finalized class. -/
def clsW7 : ClassEnt :=
  { baseClass with
    id := 11, name := "R" }

/-- C7 test data: the whole program. -/
def pW7 : Program :=
  { classes := [clsW7], functions := [], libraries := [], dynamicCid := 99 }

/-- C8 test data: a constructor that still needs its class finalized and
its body compiled. -/
def ctorW8 : FunctionEnt :=
  { baseFn with
    id := 3, name := "C.", kind := .constructorF, owner := 5,
    hasCode := false, paramNames := ["this", "phase", "a"],
    numImplicitParams := 2,
    paramDescriptors := [⟨true, .smi 7, .nullInstance⟩] }

/-- C8 test data: the owning class, not yet finalized. -/
def clsW8 : ClassEnt :=
  { baseClass with
    id := 5, name := "C", isFinalized := false }

/-- C8 test data: the whole program. -/
def pW8 : Program :=
  { classes := [clsW8], functions := [ctorW8], libraries := [],
    dynamicCid := 99 }

/-- C8 test data: the program after the lazy fill. -/
def pW8' : Program :=
  markHasCode (markFinalized pW8 5) 3

/-- C10 test data: a visible generative constructor accepting exactly its
two implicit arguments. -/
def ctorW10 : FunctionEnt :=
  { baseFn with
    id := 21, name := "K.", kind := .constructorF, owner := 5,
    validArgShapes := [(2, [])], invokeResult := .val .nullInstance }

/-- C10 test data: a visible factory `K.f` accepting its implicit
type-argument vector plus one explicit argument. -/
def factW10 : FunctionEnt :=
  { baseFn with
    id := 22, name := "K.f", kind := .constructorF,
    isStatic := true, owner := 5, validArgShapes := [(2, [])],
    invokeResult := .val (.inst 5 1) }

/-- C10 test data: the class owning both constructors. -/
def klassW10 : ClassEnt :=
  { baseClass with
    id := 5, name := "K", functionIds := [21, 22] }

/-- C10 test data: the whole program. -/
def pW10 : Program :=
  { classes := [klassW10], functions := [ctorW10, factW10],
    libraries := [], dynamicCid := 99 }

/-- The class mirror produced for a class wraps a reference to exactly
that class, in all three branches of `CreateClassMirror`. -/
theorem mirrorRef_createClassMirror (cls : ClassEnt) (type : AbstractType)
    (is_declaration : Bool) (owner_mirror : Value) :
    (CreateClassMirror cls type is_declaration owner_mirror).mirrorRef =
      some ⟨.clsRef cls.id⟩ := by
  unfold CreateClassMirror CreateFunctionTypeMirror CreateTypedefMirror
  split
  · split <;> rfl
  · rfl

/-- A successful class lookup returns the class whose id was asked for. -/
theorem findClass_id {p : Program} {cid : ClassId} {k : ClassEnt}
    (h : p.findClass cid = some k) : k.id = cid := by
  have := List.find?_some h
  simpa using this

/-- A successful function lookup returns the function whose id was asked
for. -/
theorem findFunction_id {p : Program} {fid : FunctionId} {f : FunctionEnt}
    (h : p.findFunction fid = some f) : f.id = fid := by
  have := List.find?_some h
  simpa using this

end DartVM

namespace DartDebugger

/-- C9: a CodeBreakpoint is classified internal exactly when its
`src_bpt_` back-reference is null, and removing a SourceBreakpoint
unlinks and disables exactly the CodeBreakpoints whose back-reference is
that SourceBreakpoint — pointwise, every matching breakpoint is disabled
with its back-reference cleared and every non-matching breakpoint (in
particular every internal stepping breakpoint) is left untouched. -/
theorem codeBreakpoint_internal_and_unlink (cbs : List CodeBreakpointM)
    (srcId : Nat) :
    (∀ cb : CodeBreakpointM, cb.IsInternal = true ↔ cb.srcBpt = none) ∧
    (unlinkCodeBreakpoints cbs srcId).length = cbs.length ∧
    (∀ i (h : i < cbs.length)
        (h2 : i < (unlinkCodeBreakpoints cbs srcId).length),
      (unlinkCodeBreakpoints cbs srcId).get ⟨i, h2⟩ =
        (if (cbs.get ⟨i, h⟩).srcBpt = some srcId then
          { cbs.get ⟨i, h⟩ with
            isEnabled := false, srcBpt := none }
        else cbs.get ⟨i, h⟩)) ∧
    (∀ cb ∈ cbs, cb.IsInternal = true →
      cb ∈ unlinkCodeBreakpoints cbs srcId) := by
  refine ⟨?_, ?_, ?_, ?_⟩
  · intro cb
    cases cb with
    | mk id srcBpt isEnabled =>
        cases srcBpt <;> simp [CodeBreakpointM.IsInternal]
  · simp [unlinkCodeBreakpoints]
  · intro i h h2
    by_cases hc : (cbs.get ⟨i, h⟩).srcBpt = some srcId <;>
      simp [unlinkCodeBreakpoints, List.get_eq_getElem, List.getElem_map, hc]
  · intro cb hmem hint
    have hnone : cb.srcBpt = none := by
      cases hsb : cb.srcBpt with
      | none => rfl
      | some s =>
          simp [CodeBreakpointM.IsInternal, hsb] at hint
    have hmem2 := List.mem_map_of_mem
      (fun cb : CodeBreakpointM =>
        if cb.srcBpt == some srcId then
          { cb with
            isEnabled := false, srcBpt := none }
        else cb) hmem
    simpa [unlinkCodeBreakpoints, hnone] using hmem2

/-- C9 witness: a user breakpoint referencing source breakpoint 5 is
disabled and unlinked, the internal stepping breakpoint is untouched. -/
theorem codeBreakpoint_internal_and_unlink_witness :
    (unlinkCodeBreakpoints
        [⟨0, some 5, true⟩, ⟨1, none, true⟩] 5).get ⟨0, by decide⟩ =
      ⟨0, none, false⟩ ∧
    (⟨1, none, true⟩ : CodeBreakpointM) ∈
      unlinkCodeBreakpoints [⟨0, some 5, true⟩, ⟨1, none, true⟩] 5 := by
  have h := codeBreakpoint_internal_and_unlink
    [⟨0, some 5, true⟩, ⟨1, none, true⟩] 5
  constructor
  · have h3 := h.2.2.1 0 (by decide) (by decide)
    simpa using h3
  · exact h.2.2.2 ⟨1, none, true⟩ (by decide) (by decide)

end DartDebugger

namespace DartVM

/-- C7: the mirror produced by `CreateClassMirror(C, T)` carries a
`MirrorReference` whose referent is exactly `C` — in the plain-class,
function-type and typedef branches alike — so re-deriving the class from
the mirror's reference yields the identical class entity, and
`MirrorReference_equals` holds between that reference and any reference
wrapping `C`, as reference identity of the wrapped entity. -/
theorem createClassMirror_reference_roundtrip (p : Program)
    (cls : ClassEnt) (type : AbstractType) (is_declaration : Bool)
    (owner_mirror : Value) (hfind : p.findClass cls.id = some cls) :
    (CreateClassMirror cls type is_declaration owner_mirror).mirrorRef =
      some ⟨.clsRef cls.id⟩ ∧
    ((getClassReferent ⟨.clsRef cls.id⟩).bind p.findClass = some cls) ∧
    (∀ r : MirrorReference,
      MirrorReference_equals ⟨.clsRef cls.id⟩ r = true ↔
        r.referent = .clsRef cls.id) := by
  refine ⟨mirrorRef_createClassMirror cls type is_declaration owner_mirror,
    ?_, ?_⟩
  · simp [getClassReferent, hfind]
  · intro r
    simp only [MirrorReference_equals, beq_iff_eq]
    constructor
    · intro h
      exact h.symm
    · intro h
      exact h.symm

/-- C2: a reflective setter invocation that resolves to a field marked
final raises MirroredCompilationError and performs no observable state
change (no invocation, no store) — for instance fields found by the
receiver's class-chain walk, for static class fields, and for top-level
library fields alike. -/
theorem final_field_setter_raises_mce (p : Program) (value : Value) :
    (∀ (reflectee : Value) (name : String) (f : FieldEnt),
      instanceSetterSearch p name (setterName name) p.chainFuel
          (classOfValue reflectee) = .finalField f →
      InstanceMirror_invokeSetter p reflectee name value =
        (.mce ("InstanceMirror_invokeSetter: cannot set final field " ++
          name ++ "."), [])) ∧
    (∀ (klass : ClassEnt) (name : String) (f : FieldEnt),
      lookupStaticField klass name = some f → f.isFinal = true →
      ClassMirror_invokeSetter p klass name value =
        (.mce ("ClassMirror_invokeSetter: cannot set final field " ++
          name ++ "."), [])) ∧
    (∀ (library : LibraryEnt) (name : String) (f : FieldEnt),
      lookupLocalField library name = some f → f.isFinal = true →
      LibraryMirror_invokeSetter p library name value =
        (.mce ("LibraryMirror_invokeSetter: cannot set final top-level variable "
          ++ name ++ "."), [])) := by
  refine ⟨?_, ?_, ?_⟩
  · intro reflectee name f hsearch
    simp only [InstanceMirror_invokeSetter, hsearch]
  · intro klass name f hfield hfin
    simp only [ClassMirror_invokeSetter, hfield, hfin, if_true]
  · intro library name f hfield hfin
    simp only [LibraryMirror_invokeSetter, hfield, hfin, if_true]

/-- C2 witness: the three setter paths at concrete final fields. -/
theorem final_field_setter_raises_mce_witness :
    InstanceMirror_invokeSetter pW2 (.inst 2 0) "fi" .nullInstance =
      (.mce ("InstanceMirror_invokeSetter: cannot set final field " ++
        "fi" ++ "."), []) ∧
    ClassMirror_invokeSetter pW2 clsW2 "fs" .nullInstance =
      (.mce ("ClassMirror_invokeSetter: cannot set final field " ++
        "fs" ++ "."), []) ∧
    LibraryMirror_invokeSetter pW2 libW2 "ft" .nullInstance =
      (.mce ("LibraryMirror_invokeSetter: cannot set final top-level variable "
        ++ "ft" ++ "."), []) := by
  have h := final_field_setter_raises_mce pW2 .nullInstance
  refine ⟨?_, ?_, ?_⟩
  · exact h.1 (.inst 2 0) "fi"
      { baseField with
        id := 40, name := "fi", isFinal := true, owner := 2 } (by rfl)
  · exact h.2.1 clsW2 "fs"
      { baseField with
        id := 41, name := "fs", isStatic := true, isFinal := true,
        owner := 2 } (by rfl) (by rfl)
  · exact h.2.2 libW2 "ft"
      { baseField with
        id := 42, name := "ft", isStatic := true, isFinal := true,
        owner := 2 } (by rfl) (by rfl)

/-- The type-argument mirror loop produces exactly `remaining` mirrors,
the `j`-th being the mirror of `args[num_inherited + i + j]`. -/
theorem typeArgMirrorsFrom_spec (p : Program) (args : List AbstractType)
    (num_inherited : Nat) :
    ∀ (remaining i : Nat) (l : List Mirror),
      typeArgMirrorsFrom p args num_inherited i remaining = some l →
      l.length = remaining ∧
      ∀ j (hj : j < l.length), ∃ t,
        args.get? (num_inherited + i + j) = some t ∧
        CreateTypeMirror p t = some (l.get ⟨j, hj⟩) := by
  intro remaining
  induction remaining with
  | zero =>
      intro i l h
      simp only [typeArgMirrorsFrom] at h
      cases h
      exact ⟨rfl, by intro j hj; exact absurd hj (by simp)⟩
  | succ r ih =>
      intro i l h
      cases hget : args.get? (num_inherited + i) with
      | none =>
          simp only [typeArgMirrorsFrom, hget] at h
          exact Option.noConfusion h
      | some t =>
          cases hm : CreateTypeMirror p t with
          | none =>
              simp only [typeArgMirrorsFrom, hget, hm] at h
              exact Option.noConfusion h
          | some m =>
              cases hrec : typeArgMirrorsFrom p args num_inherited (i + 1)
                  r with
              | none =>
                  simp only [typeArgMirrorsFrom, hget, hm, hrec] at h
                  exact Option.noConfusion h
              | some rest =>
                  simp only [typeArgMirrorsFrom, hget, hm, hrec,
                    Option.some.injEq] at h
                  subst h
                  obtain ⟨hlen, hpt⟩ := ih (i + 1) rest hrec
                  refine ⟨by simp [hlen], ?_⟩
                  intro j hj
                  cases j with
                  | zero =>
                      refine ⟨t, by simpa using hget, by simpa using hm⟩
                  | succ j' =>
                      have hj' : j' < rest.length := by
                        simpa using hj
                      obtain ⟨t', ht', hm'⟩ := hpt j' hj'
                      refine ⟨t', ?_, ?_⟩
                      · have : num_inherited + i + (j' + 1) =
                            num_inherited + (i + 1) + j' := by omega
                        rw [this]
                        exact ht'
                      · simpa using hm'

/-- C4: for a finalized parameterized type, `ClassMirror_type_arguments`
returns the empty list when the class declares no type parameters; a list
of exactly `n` `dynamic` type mirrors when the class declares `n > 0`
parameters and the argument vector is absent; and, when a vector of
length at least `n` is present, a list of exactly `n` mirrors of the last
`n` (non-inherited) arguments, in order. -/
theorem classMirror_type_arguments_spec (p : Program) (cid : ClassId)
    (targs : Option (List AbstractType)) (cls : ClassEnt)
    (hfind : p.findClass cid = some cls) :
    (cls.numTypeParameters = 0 →
      ClassMirror_type_arguments p (.type cid targs) = some []) ∧
    (∀ dc : ClassEnt, cls.numTypeParameters ≠ 0 → targs = none →
      p.findClass p.dynamicCid = some dc → dc.isVoidClass = false →
      dc.isDynamicClass = true →
      ClassMirror_type_arguments p (.type cid targs) =
        some (List.replicate cls.numTypeParameters
          (.specialTypeMirror "dynamic"))) ∧
    (∀ args l, cls.numTypeParameters ≠ 0 → targs = some args →
      ClassMirror_type_arguments p (.type cid targs) = some l →
      l.length = cls.numTypeParameters ∧
      ∀ j (hj : j < l.length), ∃ t,
        args.get? (args.length - cls.numTypeParameters + j) = some t ∧
        CreateTypeMirror p t = some (l.get ⟨j, hj⟩)) := by
  refine ⟨?_, ?_, ?_⟩
  · intro h0
    simp [ClassMirror_type_arguments, hfind, h0]
  · intro dc hn hnone hdyn hvoid hdcls
    subst hnone
    simp only [ClassMirror_type_arguments, hfind]
    rw [if_neg (by simpa using hn)]
    simp [CreateTypeMirror, dynamicType, hdyn, hvoid, hdcls]
  · intro args l hn hsome hres
    subst hsome
    simp only [ClassMirror_type_arguments, hfind] at hres
    rw [if_neg (by simpa using hn)] at hres
    obtain ⟨hlen, hpt⟩ := typeArgMirrorsFrom_spec p args
      (args.length - cls.numTypeParameters) cls.numTypeParameters 0 l hres
    refine ⟨hlen, ?_⟩
    intro j hj
    obtain ⟨t, ht, hm⟩ := hpt j hj
    exact ⟨t, by simpa using ht, hm⟩

/-- C4 witness: the three branches at a concrete program — a two-parameter
class with an absent vector, a zero-parameter class, and a three-element
vector whose last two entries are mirrored. -/
theorem classMirror_type_arguments_spec_witness :
    ClassMirror_type_arguments pW4 (.type 1 none) =
      some [.specialTypeMirror "dynamic", .specialTypeMirror "dynamic"] ∧
    ClassMirror_type_arguments pW4 (.type 2 none) = some [] ∧
    (∀ l, ClassMirror_type_arguments pW4
        (.type 1 (some [.type 2 none, .type 99 none, .type 2 none])) =
          some l → l.length = 2) := by
  refine ⟨?_, ?_, ?_⟩
  · have h := (classMirror_type_arguments_spec pW4 1 none boxClsW4
      (by rfl)).2.1 dynClsW4 (by decide) rfl (by rfl) (by rfl) (by rfl)
    simpa [boxClsW4, baseClass] using h
  · exact (classMirror_type_arguments_spec pW4 2 none emptyClsW4
      (by rfl)).1 (by rfl)
  · intro l hl
    have h := (classMirror_type_arguments_spec pW4 1
      (some [.type 2 none, .type 99 none, .type 2 none]) boxClsW4
      (by rfl)).2.2 [.type 2 none, .type 99 none, .type 2 none] l
      (by decide) rfl hl
    simpa [boxClsW4, baseClass] using h.1

/-- Compiling one function rewrites only that entry of a function table:
looking the id up afterwards sees the has-code flag set and nothing
else. -/
theorem find_map_updFn (fid : FunctionId) :
    ∀ l : List FunctionEnt,
      (l.map fun f =>
          if f.id == fid then { f with hasCode := true } else f).find?
          (fun f => f.id == fid) =
        (l.find? (fun f => f.id == fid)).map
          (fun f => { f with hasCode := true }) := by
  intro l
  induction l with
  | nil => rfl
  | cons f rest ih =>
      by_cases hf : f.id = fid
      · simp [List.find?_cons, hf, -List.find?_map]
      · simp only [beq_iff_eq] at ih
        simp [List.find?_cons, hf, ih, -List.find?_map]

/-- Finalizing one class rewrites only that entry of a class table. -/
theorem find_map_updCls (cid : ClassId) :
    ∀ l : List ClassEnt,
      (l.map fun c =>
          if c.id == cid then { c with isFinalized := true } else c).find?
          (fun c => c.id == cid) =
        (l.find? (fun c => c.id == cid)).map
          (fun c => { c with isFinalized := true }) := by
  intro l
  induction l with
  | nil => rfl
  | cons c rest ih =>
      by_cases hc : c.id = cid
      · simp [List.find?_cons, hc, -List.find?_map]
      · simp only [beq_iff_eq] at ih
        simp [List.find?_cons, hc, ih, -List.find?_map]

/-- `markHasCode` updates the looked-up function's has-code flag. -/
theorem findFunction_markHasCode (p : Program) (fid : FunctionId) :
    (markHasCode p fid).findFunction fid =
      (p.findFunction fid).map fun f => { f with hasCode := true } :=
  find_map_updFn fid p.functions

/-- `markHasCode` leaves the class table untouched. -/
theorem findClass_markHasCode (p : Program) (fid : FunctionId)
    (cid : ClassId) :
    (markHasCode p fid).findClass cid = p.findClass cid := rfl

/-- `markFinalized` leaves the function table untouched. -/
theorem findFunction_markFinalized (p : Program) (cid : ClassId)
    (fid : FunctionId) :
    (markFinalized p cid).findFunction fid = p.findFunction fid := rfl

/-- `markFinalized` updates the looked-up class's finalized flag. -/
theorem findClass_markFinalized (p : Program) (cid : ClassId) :
    (markFinalized p cid).findClass cid =
      (p.findClass cid).map fun c => { c with isFinalized := true } :=
  find_map_updCls cid p.classes

/-- After a successful constructor-compilation fill, a second call is a
pure read returning the program unchanged; moreover the filled program's
entry for the function differs from the original at most in the has-code
flag. -/
theorem ensure_ok_second (p p' : Program) (fid : FunctionId)
    (h : EnsureConstructorsAreCompiled p fid = .ok p') :
    EnsureConstructorsAreCompiled p' fid = .ok p' ∧
    (p'.findFunction fid = p.findFunction fid ∨
     p'.findFunction fid =
       (p.findFunction fid).map fun f => { f with hasCode := true }) := by
  cases hf : p.findFunction fid with
  | none =>
      simp only [EnsureConstructorsAreCompiled, hf] at h
      injection h with h1
      subst h1
      exact ⟨by simp only [EnsureConstructorsAreCompiled, hf], Or.inl hf⟩
  | some func =>
      simp only [EnsureConstructorsAreCompiled, hf] at h
      split at h
      next hk =>
        injection h with h1
        subst h1
        refine ⟨?_, Or.inl hf⟩
        simp only [EnsureConstructorsAreCompiled, hf, if_pos hk]
      next hk =>
        split at h
        next hnone =>
          injection h with h1
          subst h1
          refine ⟨?_, Or.inl hf⟩
          simp only [EnsureConstructorsAreCompiled, hf]
          rw [if_neg hk]
          simp only [hnone]
        next cls hcls =>
          split at h
          case _ p1 hens =>
            have hcid : cls.id = func.owner := findClass_id hcls
            simp only [ensureIsFinalized] at hens
            split at hens
            next hfin =>
              injection hens with h2
              subst h2
              split at h
              next hcode =>
                injection h with h1
                subst h1
                refine ⟨?_, Or.inl hf⟩
                simp only [EnsureConstructorsAreCompiled, hf]
                rw [if_neg hk]
                simp only [hcls, ensureIsFinalized, hfin, if_true, hcode]
              next hcode =>
                split at h
                next e hcerr =>
                  simp only [throwInvokeError] at h
                  split at h <;> cases h
                next hcerr =>
                  injection h with h1
                  subst h1
                  refine ⟨?_, Or.inr (by rw [findFunction_markHasCode, hf])⟩
                  have hf2 : (markHasCode p fid).findFunction fid =
                      some { func with
                             hasCode := true } := by
                    rw [findFunction_markHasCode, hf]
                    rfl
                  simp only [EnsureConstructorsAreCompiled, hf2]
                  rw [if_neg hk]
                  simp only [findClass_markHasCode, hcls, ensureIsFinalized,
                    hfin, if_true]
            next hfin =>
              split at hens
              next e hferr =>
                simp only [throwInvokeError] at hens
                split at hens <;> cases hens
              next hferr =>
                injection hens with h2
                subst h2
                have hclsid : p.findClass cls.id = some cls := by
                  rw [hcid]
                  exact hcls
                have hcls2 : (markFinalized p cls.id).findClass func.owner =
                    some { cls with
                           isFinalized := true } := by
                  rw [← hcid, findClass_markFinalized, hclsid]
                  rfl
                split at h
                next hcode =>
                  injection h with h1
                  subst h1
                  refine ⟨?_, Or.inl hf⟩
                  simp only [EnsureConstructorsAreCompiled,
                    findFunction_markFinalized, hf]
                  rw [if_neg hk]
                  simp only [hcls2, ensureIsFinalized, if_true, hcode]
                next hcode =>
                  split at h
                  next e hcerr =>
                    simp only [throwInvokeError] at h
                    split at h <;> cases h
                  next hcerr =>
                    injection h with h1
                    subst h1
                    have hf2 : (markHasCode (markFinalized p cls.id)
                        fid).findFunction fid =
                        some { func with
                               hasCode := true } := by
                      rw [findFunction_markHasCode,
                        findFunction_markFinalized, hf]
                      rfl
                    refine ⟨?_, Or.inr ?_⟩
                    · simp only [EnsureConstructorsAreCompiled, hf2]
                      rw [if_neg hk]
                      simp only [findClass_markHasCode, hcls2,
                        ensureIsFinalized, if_true]
                    · rw [findFunction_markHasCode,
                        findFunction_markFinalized, hf]
          case _ r n t pn hens => cases h
          case _ m hens => cases h
          case _ m hens => cases h

/-- C8: the lazy fill forcing compilation of a constructor before
reflecting on its parameters is idempotent — a successful
`EnsureConstructorsAreCompiled` yields a program on which calling it
again is a pure read returning the same program — and consequently
`CreateParameterMirrorList` run twice on the same constructor observes
the same parameter information and the same program. -/
theorem ensureConstructors_idempotent (p p' : Program) (fid : FunctionId) :
    (EnsureConstructorsAreCompiled p fid = .ok p' →
      EnsureConstructorsAreCompiled p' fid = .ok p') ∧
    (∀ l q, CreateParameterMirrorList p fid = .ok (l, q) →
      CreateParameterMirrorList q fid = .ok (l, q)) := by
  constructor
  · intro h
    exact (ensure_ok_second p p' fid h).1
  · intro l q h
    cases hf : p.findFunction fid with
    | none =>
        simp only [CreateParameterMirrorList, hf, Outcome.ok.injEq,
          Prod.mk.injEq] at h
        obtain ⟨h1, h2⟩ := h
        subst h1
        subst h2
        simp only [CreateParameterMirrorList, hf]
    | some func =>
        simp only [CreateParameterMirrorList, hf] at h
        split at h
        next hearly =>
          simp only [Outcome.ok.injEq, Prod.mk.injEq] at h
          obtain ⟨h1, h2⟩ := h
          subst h1
          subst h2
          simp only [CreateParameterMirrorList, hf]
          rw [if_pos hearly]
        next hearly =>
          split at h
          case _ p1 hens =>
            split at h
            next e hperr =>
              simp only [throwInvokeError] at h
              split at h <;> cases h
            next hperr =>
              simp only [Outcome.ok.injEq, Prod.mk.injEq] at h
              obtain ⟨h1, h2⟩ := h
              subst h1
              subst h2
              obtain ⟨hsecond, hff⟩ := ensure_ok_second p p1 fid hens
              cases hff with
              | inl hsame =>
                  rw [hf] at hsame
                  simp only [CreateParameterMirrorList, hsame, hsecond,
                    hperr]
                  rw [if_neg hearly]
              | inr hupd =>
                  rw [hf] at hupd
                  simp only [CreateParameterMirrorList, hupd,
                    Option.map_some'] 
                  simp only [hsecond]
                  rw [if_neg hearly]
                  simp only [hperr]
                  rfl
          case _ r n t pn hens => cases h
          case _ m hens => cases h
          case _ m hens => cases h

/-- C8 witness: a constructor whose class is unfinalized and whose body is
uncompiled — the first call performs the fill, the second is a pure read,
and the parameter-mirror list is stable across the fill. -/
theorem ensureConstructors_idempotent_witness :
    EnsureConstructorsAreCompiled pW8 3 = .ok pW8' ∧
    EnsureConstructorsAreCompiled pW8' 3 = .ok pW8' ∧
    CreateParameterMirrorList pW8' 3 =
      .ok ([⟨"a", 0, false, false, true, .smi 7, .nullInstance⟩], pW8') := by
  refine ⟨rfl, ?_, ?_⟩
  · exact (ensureConstructors_idempotent pW8 pW8' 3).1 rfl
  · exact (ensureConstructors_idempotent pW8 pW8' 3).2
      [⟨"a", 0, false, false, true, .smi 7, .nullInstance⟩] pW8' rfl

/-- A value whose sentinel test is positive is the sentinel. -/
theorem isSentinel_eq_true {v : Value} (h : v.isSentinel = true) :
    v = .sentinel := by
  cases v <;> simp [Value.isSentinel] at h ⊢

/-- The tuple conversion marks "found" false exactly on the sentinel and
never lets the sentinel itself through as the value slot. -/
theorem findInContextTuple_ok (r : Outcome Value) (b : Bool) (v : Value)
    (h : findInContextTuple r = .ok (b, v)) :
    (b = false ↔ r = .ok Value.sentinel) ∧ v.isSentinel = false := by
  cases r with
  | ok v0 =>
      cases hs : v0.isSentinel with
      | true =>
          have hv0 := isSentinel_eq_true hs
          subst hv0
          simp only [findInContextTuple, Value.isSentinel, if_true] at h
          injection h with h1
          injection h1 with hb hv
          subst hb
          subst hv
          simp [Value.isSentinel]
      | false =>
          simp only [findInContextTuple, hs, Bool.false_eq_true,
            if_false] at h
          injection h with h1
          injection h1 with hb hv
          subst hb
          subst hv
          refine ⟨?_, hs⟩
          constructor
          · intro hcontra
            exact absurd hcontra (by simp)
          · intro hok
            injection hok with hv0
            subst hv0
            simp [Value.isSentinel] at hs
  | noSuchMethod r0 n0 t0 pn0 => simp [findInContextTuple] at h
  | mce m => simp [findInContextTuple] at h
  | err m => simp [findInContextTuple] at h

/-- C3: in the non-throwing lookup paths, "nothing found" is signalled by
the distinguished sentinel instance, never by the language's null — so a
field legitimately holding null is distinguishable from absence — and
`ClosureMirror_find_in_context` converts the outcome into a two-slot
tuple whose first slot is false exactly when the lookup produced the
sentinel, with the sentinel itself never escaping as a user-visible
value. -/
theorem notFound_sentinel_discipline (p : Program) :
    (∀ (library : LibraryEnt) (name : String),
      lookupLocalField library name = none →
      lookupLocalFunction p library (getterName name) = none →
      lookupLocalFunction p library name = none →
      InvokeLibraryGetter p library name false = .ok .sentinel) ∧
    (∀ (klass : ClassEnt) (name : String),
      lookupStaticField klass name = none →
      lookupStaticFunction p klass (getterName name) = none →
      lookupStaticFunction p klass name = none →
      InvokeClassGetter p klass name false = .ok .sentinel) ∧
    (∀ (klass : ClassEnt) (reflectee : Value) (name : String),
      resolveDynamicAnyArgs p (getterName name) p.chainFuel
        (some klass.id) = none →
      InvokeInstanceGetter p klass reflectee name false = .ok .sentinel) ∧
    (∀ (library : LibraryEnt) (name : String) (f : FieldEnt),
      lookupLocalField library name = some f → f.isUninit = false →
      InvokeLibraryGetter p library name false = .ok f.value) ∧
    (∀ v : Value, v.isSentinel = false →
      (Outcome.ok v ≠ (.ok .sentinel : Outcome Value)) ∧
      findInContextTuple (.ok v) = .ok (true, v)) ∧
    (findInContextTuple (.ok .sentinel) = .ok (false, .nullInstance)) ∧
    (∀ r b v, findInContextTuple r = .ok (b, v) →
      (b = false ↔ r = .ok Value.sentinel) ∧ v.isSentinel = false) ∧
    (∀ fid ctx parts b v,
      ClosureMirror_find_in_context p fid ctx parts = .ok (b, v) →
      v.isSentinel = false) := by
  refine ⟨?_, ?_, ?_, ?_, ?_, ?_, ?_, ?_⟩
  · intro library name h1 h2 h3
    simp [InvokeLibraryGetter, h1, h2, h3, libraryGetterTail]
  · intro klass name h1 h2 h3
    simp [InvokeClassGetter, h1, invokeClassGetterSlow, h2, h3]
  · intro klass reflectee name hres
    simp [InvokeInstanceGetter, hres]
  · intro library name f hf hu
    simp [InvokeLibraryGetter, hf, hu]
  · intro v hs
    refine ⟨?_, by simp [findInContextTuple, hs]⟩
    intro hcontra
    injection hcontra with hv
    subst hv
    simp [Value.isSentinel] at hs
  · simp [findInContextTuple, Value.isSentinel]
  · intro r b v h
    exact findInContextTuple_ok r b v h
  · intro fid ctx parts b v h
    cases hf : p.findFunction fid with
    | none =>
        simp only [ClosureMirror_find_in_context, hf] at h
        exact Outcome.noConfusion h
    | some function =>
        cases hcls : p.findClass function.owner with
        | none =>
            simp only [ClosureMirror_find_in_context, hf, hcls] at h
            exact Outcome.noConfusion h
        | some owner =>
            cases hlib : p.findLibrary owner.library with
            | none =>
                simp only [ClosureMirror_find_in_context, hf, hcls,
                  hlib] at h
                exact Outcome.noConfusion h
            | some this_library =>
                simp only [ClosureMirror_find_in_context, hf, hcls,
                  hlib] at h
                exact (findInContextTuple_ok _ b v h).2

/-- C3 witness: an absent name yields the sentinel, a null-valued field
yields null (found), and the tuple conversion separates the two. -/
theorem notFound_sentinel_discipline_witness :
    InvokeLibraryGetter pW3 libW3 "z" false = .ok .sentinel ∧
    InvokeLibraryGetter pW3 libW3 "n" false = .ok .nullInstance ∧
    findInContextTuple (.ok .nullInstance) = .ok (true, .nullInstance) ∧
    findInContextTuple (.ok .sentinel) = .ok (false, .nullInstance) := by
  have h := notFound_sentinel_discipline pW3
  refine ⟨?_, ?_, ?_, ?_⟩
  · exact h.1 libW3 "z" (by rfl) (by rfl) (by rfl)
  · exact h.2.2.2.1 libW3 "n"
      { baseField with
        id := 50, name := "n", isStatic := true, value := .nullInstance,
        owner := 3 } (by rfl) (by rfl)
  · exact (h.2.2.2.2.1 .nullInstance (by rfl)).2
  · exact h.2.2.2.2.2.1

/-- C1: resolution of an unqualified single-part name in a closure's
lexical scope is a strict short-circuiting cascade — context slots, then
(via a recorded `this` binding) the instance-getter path on that
receiver, then the static members of the enclosing class, then the
enclosing library followed by each directly imported library in import
order — in which the first stage producing a non-sentinel result
determines the answer; in particular a context-local binding wins over
any enclosing-library binding of the same name. -/
theorem closure_lookup_cascade (p : Program) (fid : FunctionId)
    (ctx : List Value) (name : String) (function : FunctionEnt)
    (owner : ClassEnt) (this_library : LibraryEnt)
    (hf : p.findFunction fid = some function)
    (ho : p.findClass function.owner = some owner)
    (hl : p.findLibrary owner.library = some this_library) :
    (ClosureMirror_find_in_context p fid ctx [name] =
      findInContextTuple
        (cascadeLookup
          (LookupFunctionOrFieldInFunctionContext p function ctx name)
          (cascadeLookup
            (LookupStaticFunctionOrFieldInClass p owner name)
            (LookupFunctionOrFieldInLibrary p this_library none name)))) ∧
    (∀ i, ctxScan name function.ctxScopeNames 0 none = .found i →
      (ctx.getD i .nullInstance).isSentinel = false →
      ClosureMirror_find_in_context p fid ctx [name] =
        .ok (true, ctx.getD i .nullInstance)) ∧
    (∀ this_index,
      ctxScan name function.ctxScopeNames 0 none =
        .notFound (some this_index) →
      LookupFunctionOrFieldInFunctionContext p function ctx name =
        InvokeInstanceGetter p owner (ctx.getD this_index .nullInstance)
          name false) ∧
    (ctxScan name function.ctxScopeNames 0 none = .notFound none →
      LookupFunctionOrFieldInFunctionContext p function ctx name =
        .ok .sentinel) ∧
    (∀ (lib : LibraryEnt) (cn : Option String) (nm : String),
      LookupFunctionOrFieldInLibrary p lib cn nm =
        cascadeLookup (LookupFunctionOrFieldInLibraryHelper p lib cn nm)
          (lookupInImports p cn nm lib.imports)) := by
  refine ⟨?_, ?_, ?_, ?_, ?_⟩
  · cases h1 : LookupFunctionOrFieldInFunctionContext p function ctx
        name with
    | ok v1 =>
        cases hs1 : v1.isSentinel with
        | false =>
            simp [ClosureMirror_find_in_context, hf, ho, hl, h1, hs1,
              cascadeLookup]
        | true =>
            have hv1 := isSentinel_eq_true hs1
            subst hv1
            cases h2 : LookupStaticFunctionOrFieldInClass p owner name with
            | ok v2 =>
                cases hs2 : v2.isSentinel with
                | false =>
                    simp [ClosureMirror_find_in_context, hf, ho, hl, h1,
                      h2, hs2, cascadeLookup, Value.isSentinel]
                | true =>
                    have hv2 := isSentinel_eq_true hs2
                    subst hv2
                    simp [ClosureMirror_find_in_context, hf, ho, hl, h1,
                      h2, cascadeLookup, Value.isSentinel]
            | noSuchMethod r0 n0 t0 pn0 =>
                simp [ClosureMirror_find_in_context, hf, ho, hl, h1, h2,
                  cascadeLookup, Value.isSentinel]
            | mce m =>
                simp [ClosureMirror_find_in_context, hf, ho, hl, h1, h2,
                  cascadeLookup, Value.isSentinel]
            | err m =>
                simp [ClosureMirror_find_in_context, hf, ho, hl, h1, h2,
                  cascadeLookup, Value.isSentinel]
    | noSuchMethod r0 n0 t0 pn0 =>
        simp [ClosureMirror_find_in_context, hf, ho, hl, h1,
          cascadeLookup]
    | mce m =>
        simp [ClosureMirror_find_in_context, hf, ho, hl, h1,
          cascadeLookup]
    | err m =>
        simp [ClosureMirror_find_in_context, hf, ho, hl, h1,
          cascadeLookup]
  · intro i hscan hns
    have h1 : LookupFunctionOrFieldInFunctionContext p function ctx name =
        .ok (ctx.getD i .nullInstance) := by
      simp only [LookupFunctionOrFieldInFunctionContext, hscan]
    have hns2 : (ctx[i]?.getD Value.nullInstance).isSentinel = false := by
      simpa using hns
    simp [ClosureMirror_find_in_context, hf, ho, hl, h1, hns2,
      findInContextTuple]
  · intro this_index hscan
    simp only [LookupFunctionOrFieldInFunctionContext, hscan, ho]
  · intro hscan
    simp only [LookupFunctionOrFieldInFunctionContext, hscan]
  · intro lib cn nm
    cases hh : LookupFunctionOrFieldInLibraryHelper p lib cn nm with
    | ok v =>
        cases hs : v.isSentinel with
        | false => simp [LookupFunctionOrFieldInLibrary, hh, hs,
            cascadeLookup]
        | true =>
            have hv := isSentinel_eq_true hs
            subst hv
            simp [LookupFunctionOrFieldInLibrary, hh, cascadeLookup,
              Value.isSentinel]
    | noSuchMethod r0 n0 t0 pn0 =>
        simp [LookupFunctionOrFieldInLibrary, hh, cascadeLookup]
    | mce m => simp [LookupFunctionOrFieldInLibrary, hh, cascadeLookup]
    | err m => simp [LookupFunctionOrFieldInLibrary, hh, cascadeLookup]

/-- C1 witness: a name bound both as a context-local slot and as a
top-level field of the enclosing library resolves to the context-local
value, even though the library lookup alone would find the top-level. -/
theorem closure_lookup_cascade_witness :
    ClosureMirror_find_in_context pW1 10 [.inst 1 0] ["x"] =
      .ok (true, .inst 1 0) ∧
    InvokeLibraryGetter pW1 libW1 "x" false = .ok (.inst 1 99) := by
  constructor
  · exact (closure_lookup_cascade pW1 10 [.inst 1 0] "x" fnW1 clsW1 libW1
      (by rfl) (by rfl) (by rfl)).2.1 0 (by rfl) (by rfl)
  · rfl

/-- C6 counterexample: a non-canonical signature class (a typedef) in a
library dictionary IS yielded by `LibraryMirror_members` — as a typedef
mirror wrapping that very class — so member enumeration does not exclude
every function-signature class, only the canonical ones. -/
theorem library_members_signature_counterexample :
    LibraryMirror_members pC6 .nullInstance libC6 =
      [.typedefMirror ⟨.clsRef 7⟩ "F" .nullInstance] ∧
    pC6.findClass 7 = some typedefClsC6 ∧
    typedefClsC6.isSignatureClass = true ∧
    (Mirror.typedefMirror ⟨.clsRef 7⟩ "F" .nullInstance).mirrorRef =
      some ⟨.clsRef 7⟩ := by
  exact ⟨rfl, rfl, rfl, rfl⟩

/-- C6 (amended): enumerating a library's members never yields a mirror
referencing a canonical signature class, the dynamic class, or an
internal implementation class; every other class in the dictionary is
yielded (non-canonical signature classes included, as typedef mirrors),
as is every field and every regular/getter/setter function. -/
theorem library_members_filter_amended (p : Program) (owner : Value)
    (library : LibraryEnt) :
    (∀ m ∈ LibraryMirror_members p owner library, ∀ cid cls,
      p.findClass cid = some cls →
      (cls.isCanonicalSignatureClass = true ∨ cls.isDynamicClass = true ∨
        cls.isImplementation = true) →
      m.mirrorRef ≠ some ⟨.clsRef cid⟩) ∧
    (∀ cid cls, DictEntry.clsE cid ∈ library.dictionary →
      p.findClass cid = some cls →
      cls.isCanonicalSignatureClass = false → cls.isDynamicClass = false →
      cls.isImplementation = false →
      CreateClassMirror cls (rareTypeOf cls) true owner ∈
        LibraryMirror_members p owner library) ∧
    (∀ f, DictEntry.fldE f ∈ library.dictionary →
      CreateVariableMirror f owner ∈
        LibraryMirror_members p owner library) ∧
    (∀ fid func, DictEntry.fnE fid ∈ library.dictionary →
      p.findFunction fid = some func →
      (func.kind = .regularF ∨ func.kind = .getterF ∨
        func.kind = .setterF) →
      CreateMethodMirror func owner ∈
        LibraryMirror_members p owner library) := by
  refine ⟨?_, ?_, ?_, ?_⟩
  · intro m hm cid cls hfind hfilter
    simp only [LibraryMirror_members, List.mem_flatten, List.mem_map] at hm
    obtain ⟨s, ⟨e, he, rfl⟩, hms⟩ := hm
    cases e with
    | clsE cid2 =>
        cases hfc : p.findClass cid2 with
        | none =>
            simp only [memberMirrorsOfEntry, hfc, List.not_mem_nil] at hms
        | some k =>
            simp only [memberMirrorsOfEntry, hfc] at hms
            by_cases hcond : (!k.isCanonicalSignatureClass &&
                !k.isDynamicClass && !k.isImplementation) = true
            · rw [if_pos hcond] at hms
              simp only [List.mem_singleton] at hms
              subst hms
              rw [mirrorRef_createClassMirror]
              intro hcontra
              injection hcontra with h1
              injection h1 with h2
              injection h2 with h3
              have hkid : k.id = cid2 := findClass_id hfc
              rw [hkid] at h3
              subst h3
              rw [hfc] at hfind
              injection hfind with h4
              subst h4
              rcases hfilter with hx | hx | hx <;> simp [hx] at hcond
            · rw [if_neg hcond] at hms
              simp at hms
    | fldE f =>
        simp only [memberMirrorsOfEntry, List.mem_singleton] at hms
        subst hms
        intro hcontra
        simp only [CreateVariableMirror, Mirror.mirrorRef] at hcontra
        injection hcontra with h1
        injection h1 with h2
        exact Referent.noConfusion h2
    | fnE fid =>
        cases hff : p.findFunction fid with
        | none =>
            simp only [memberMirrorsOfEntry, hff, List.not_mem_nil] at hms
        | some func =>
            simp only [memberMirrorsOfEntry, hff] at hms
            by_cases hcond : (func.kind = FunctionKind.regularF ||
                func.kind = FunctionKind.getterF ||
                func.kind = FunctionKind.setterF) = true
            · rw [if_pos hcond] at hms
              simp only [List.mem_singleton] at hms
              subst hms
              intro hcontra
              simp only [CreateMethodMirror, Mirror.mirrorRef] at hcontra
              injection hcontra with h1
              injection h1 with h2
              exact Referent.noConfusion h2
            · rw [if_neg hcond] at hms
              simp at hms
  · intro cid cls he hfind h1 h2 h3
    simp only [LibraryMirror_members, List.mem_flatten]
    refine ⟨memberMirrorsOfEntry p owner (.clsE cid),
      List.mem_map_of_mem _ he, ?_⟩
    simp [memberMirrorsOfEntry, hfind, h1, h2, h3]
  · intro f he
    simp only [LibraryMirror_members, List.mem_flatten]
    refine ⟨memberMirrorsOfEntry p owner (.fldE f),
      List.mem_map_of_mem _ he, ?_⟩
    simp [memberMirrorsOfEntry]
  · intro fid func he hff hkind
    simp only [LibraryMirror_members, List.mem_flatten]
    refine ⟨memberMirrorsOfEntry p owner (.fnE fid),
      List.mem_map_of_mem _ he, ?_⟩
    rcases hkind with hx | hx | hx <;> simp [memberMirrorsOfEntry, hff, hx]

/-- C6 amended-claim witness: the plain class, the field and the regular
function of a concrete library are all yielded. -/
theorem library_members_filter_amended_witness :
    CreateClassMirror plainClsC6 (rareTypeOf plainClsC6) true
        .nullInstance ∈
      LibraryMirror_members pC6b .nullInstance libC6b ∧
    CreateVariableMirror fldC6 .nullInstance ∈
      LibraryMirror_members pC6b .nullInstance libC6b ∧
    CreateMethodMirror fnC6 .nullInstance ∈
      LibraryMirror_members pC6b .nullInstance libC6b := by
  have h := library_members_filter_amended pC6b .nullInstance libC6b
  refine ⟨?_, ?_, ?_⟩
  · exact h.2.1 8 plainClsC6 (by simp [libC6b, baseLib]) (by rfl) (by rfl)
      (by rfl) (by rfl)
  · exact h.2.2.1 fldC6 (by simp [libC6b, baseLib])
  · exact h.2.2.2 60 fnC6 (by simp [libC6b, baseLib]) (by rfl)
      (Or.inl (by rfl))

/-- Exhaustive classification of `ClassMirror_invokeConstructor`: it
either throws the canonical constructor NoSuchMethod with no effects,
fails on unresolved redirection data with no effects, or reaches a
resolved generative constructor (allocating and then invoking with the
fresh instance and the constructor phase prepended) or a resolved
factory (invoking with the type-argument vector prepended). -/
theorem invokeConstructor_classify (p : Program) (klass : ClassEnt)
    (type : AbstractType) (cname : String) (eargs : List Value)
    (ans : List String) :
    (ClassMirror_invokeConstructor p klass type cname eargs ans =
      (.noSuchMethod (.rareType klass.id) (klass.name ++ "." ++ cname)
        (encodeInvocationType .constructorCall .methodT) none, [])) ∨
    (∃ m, ClassMirror_invokeConstructor p klass type cname eargs ans =
      (.err m, [])) ∨
    (∃ (rc : FunctionEnt) (rk : ClassId) (ta : Option (List AbstractType)),
      rc.isGenerativeConstructor = true ∧
      ClassMirror_invokeConstructor p klass type cname eargs ans =
        ((match rc.invokeResult with
          | .val _ => .ok (Value.freshInstance rk)
          | .errv e => throwInvokeError e),
         [.allocated rk ta,
          .invokedFn rc.id (Value.freshInstance rk ::
            Value.smi kCtorPhaseAll :: eargs)])) ∨
    (∃ (rc : FunctionEnt) (rk : ClassId) (ta : Option (List AbstractType)),
      rc.isGenerativeConstructor = false ∧
      ClassMirror_invokeConstructor p klass type cname eargs ans =
        ((match rc.invokeResult with
          | .val v => .ok v
          | .errv e => throwInvokeError e),
         [.invokedFn rc.id (Value.typeArgsV ta :: eargs)])) := by
  cases hlc : lookupFunction p klass (klass.name ++ "." ++ cname) with
  | none =>
      left
      simp [ClassMirror_invokeConstructor, hlc, throwNoSuchMethodNames]
  | some lc =>
      cases hok : (!(lc.isGenerativeConstructor || lc.isFactoryFn) ||
          !lc.isVisible) with
      | true =>
          left
          simp only [ClassMirror_invokeConstructor, hlc, hok, if_true,
            throwNoSuchMethodNames]
      | false =>
          cases hred : (if lc.isRedirectingFactoryF then
              redirectionData p lc
            else some (lc, klass.id, type.typeArguments)) with
          | none =>
              right
              left
              refine ⟨"unresolved redirecting factory", ?_⟩
              simp only [ClassMirror_invokeConstructor, hlc, hok, hred,
                Bool.false_eq_true, if_false]
          | some trip =>
              obtain ⟨rc, rk, ta⟩ := trip
              cases hval : (!areValidArguments rc
                  ⟨(if rc.isGenerativeConstructor then 2 else 1) +
                    eargs.length, ans⟩ || !rc.isVisible) with
              | true =>
                  left
                  simp only [ClassMirror_invokeConstructor, hlc, hok, hred,
                    Bool.false_eq_true, if_false]
                  simp only [hval, if_true, throwNoSuchMethodNames]
              | false =>
                  cases hgen : rc.isGenerativeConstructor with
                  | true =>
                      right; right; left
                      refine ⟨rc, rk, ta, hgen, ?_⟩
                      rw [hgen] at hval
                      simp at hval
                      cases hi : rc.invokeResult with
                      | val w =>
                          simp only [ClassMirror_invokeConstructor, hlc,
                            hok, hred, Bool.false_eq_true, if_false]
                          simp [hval.1, hval.2, hgen, invokeFunction, hi]
                      | errv e =>
                          simp only [ClassMirror_invokeConstructor, hlc,
                            hok, hred, Bool.false_eq_true, if_false]
                          simp [hval.1, hval.2, hgen, invokeFunction, hi]
                  | false =>
                      right; right; right
                      refine ⟨rc, rk, ta, hgen, ?_⟩
                      rw [hgen] at hval
                      simp at hval
                      cases hi : rc.invokeResult with
                      | val w =>
                          simp only [ClassMirror_invokeConstructor, hlc,
                            hok, hred, Bool.false_eq_true, if_false]
                          simp [hval.1, hval.2, hgen, invokeFunction, hi]
                      | errv e =>
                          simp only [ClassMirror_invokeConstructor, hlc,
                            hok, hred, Bool.false_eq_true, if_false]
                          simp [hval.1, hval.2, hgen, invokeFunction, hi]

/-- C7 witness: the round-trip at a concrete program and class, through
each projection of the theorem. -/
theorem createClassMirror_reference_roundtrip_witness :
    (CreateClassMirror clsW7 (rareTypeOf clsW7) true
        Value.nullInstance).mirrorRef = some ⟨.clsRef 11⟩ ∧
    ((getClassReferent ⟨.clsRef 11⟩).bind pW7.findClass = some clsW7) ∧
    MirrorReference_equals ⟨.clsRef 11⟩ ⟨.clsRef 11⟩ = true := by
  have h := createClassMirror_reference_roundtrip pW7 clsW7
    (rareTypeOf clsW7) true Value.nullInstance (by rfl)
  refine ⟨?_, ?_, ?_⟩
  · simpa [clsW7, baseClass] using h.1
  · simpa [clsW7, baseClass] using h.2.1
  · exact ((h.2.2 ⟨.clsRef 11⟩).mpr (by simp [clsW7, baseClass]))

/-- C5 counterexample: a constructor is found (with a nonempty formal
parameter list) but the argument shape is invalid, yet the thrown
NoSuchMethod carries no parameter names at all — the code deliberately
pretends the constructor was not found — contradicting the claim that
every found-but-malformed invocation carries the complete
parameter-name list. -/
theorem nsm_constructor_names_counterexample :
    ClassMirror_invokeConstructor pC5 klassC5 (rareTypeOf klassC5) ""
        [.nullInstance] [] =
      (.noSuchMethod (.rareType 5) "K."
        (encodeInvocationType .constructorCall .methodT) none, []) ∧
    lookupFunction pC5 klassC5 "K." = some ctorC5 ∧
    ctorC5.paramNames = ["this", "phase", "x"] ∧
    (none : Option (List String)) ≠ some ctorC5.paramNames := by
  refine ⟨rfl, rfl, rfl, by simp⟩

/-- C5 (amended): a failed reflective invocation throws NoSuchMethod
carrying the receiver for instance calls, the class's rare type for
static and constructor calls, or the null instance for top-level calls,
plus the attempted name and the injectively encoded call×operation
classification; the complete formal-parameter-name list of a
found-but-malformed function is carried by the static and top-level
throw sites, while constructor invocations deliberately pass a null
function — pretending the constructor was not found, to match the
non-reflective error — and so never carry parameter names. -/
theorem nsm_payload_amended (p : Program) :
    (∀ (klass : ClassEnt) (nm : String) (args : List Value)
        (ans : List String) (f : FunctionEnt),
      lookupStaticFunction p klass nm = some f →
      (areValidArguments f ⟨args.length, ans⟩ = false ∨
        f.isVisible = false) →
      ClassMirror_invoke p klass nm args ans =
        .noSuchMethod (.rareType klass.id) nm
          (encodeInvocationType .staticCall .methodT)
          (some f.paramNames)) ∧
    (∀ (klass : ClassEnt) (nm : String) (args : List Value)
        (ans : List String),
      lookupStaticFunction p klass nm = none →
      ClassMirror_invoke p klass nm args ans =
        .noSuchMethod (.rareType klass.id) nm
          (encodeInvocationType .staticCall .methodT) none) ∧
    (∀ (library : LibraryEnt) (nm : String) (args : List Value)
        (ans : List String) (f : FunctionEnt),
      lookupLocalFunction p library nm = some f →
      (areValidArguments f ⟨args.length, ans⟩ = false ∨
        f.isVisible = false) →
      LibraryMirror_invoke p library nm args ans =
        .noSuchMethod .nullInstance nm
          (encodeInvocationType .topLevelCall .methodT)
          (some f.paramNames)) ∧
    (∀ (klass : ClassEnt) (type : AbstractType) (cname : String)
        (eargs : List Value) (ans : List String) r n t pn,
      (ClassMirror_invokeConstructor p klass type cname eargs ans).1 =
        .noSuchMethod r n t pn →
      r = .rareType klass.id ∧ n = klass.name ++ "." ++ cname ∧
      t = encodeInvocationType .constructorCall .methodT ∧ pn = none) ∧
    (∀ (reflectee : Value) (nm : String) (args : List Value)
        (ans : List String),
      resolveDynamicAnyArgs p nm p.chainFuel (classOfValue reflectee) =
        none →
      InstanceMirror_invoke p reflectee nm args ans =
        .noSuchMethod reflectee nm
          (encodeInvocationType .dynamicCall (classifyName nm)) none) ∧
    (∀ c t c' t', encodeInvocationType c t = encodeInvocationType c' t' →
      c = c' ∧ t = t') := by
  refine ⟨?_, ?_, ?_, ?_, ?_, ?_⟩
  · intro klass nm args ans f hfind hbad
    rcases hbad with hb | hb <;>
      simp [ClassMirror_invoke, hfind, hb, throwNoSuchMethodNames]
  · intro klass nm args ans hnone
    simp [ClassMirror_invoke, hnone, throwNoSuchMethodNames]
  · intro library nm args ans f hfind hbad
    rcases hbad with hb | hb <;>
      simp [LibraryMirror_invoke, hfind, hb, throwNoSuchMethodNames]
  · intro klass type cname eargs ans r n t pn h
    rcases invokeConstructor_classify p klass type cname eargs ans with
      hc | ⟨m, hc⟩ | ⟨rc, rk, ta, _, hc⟩ | ⟨rc, rk, ta, _, hc⟩
    · rw [hc] at h
      injection h with h1 h2 h3 h4
      exact ⟨h1.symm, h2.symm, h3.symm, h4.symm⟩
    · rw [hc] at h
      exact Outcome.noConfusion h
    · rw [hc] at h
      simp only at h
      cases hi : rc.invokeResult with
      | val w => rw [hi] at h; exact Outcome.noConfusion h
      | errv e =>
          rw [hi] at h
          simp only [throwInvokeError] at h
          split at h <;> exact Outcome.noConfusion h
    · rw [hc] at h
      simp only at h
      cases hi : rc.invokeResult with
      | val w => rw [hi] at h; exact Outcome.noConfusion h
      | errv e =>
          rw [hi] at h
          simp only [throwInvokeError] at h
          split at h <;> exact Outcome.noConfusion h
  · intro reflectee nm args ans hres
    simp [InstanceMirror_invoke, hres, invokeDynamicFunction,
      invokeNoSuchMethodOutcome]
  · intro c t c' t' h
    cases c <;> cases t <;> cases c' <;> cases t' <;>
      simp_all [encodeInvocationType, IMCall.rank, IMType.rank]

/-- C5 amended-claim witness: the static found-but-malformed case carries
the parameter names; the constructor case carries none. -/
theorem nsm_payload_amended_witness :
    ClassMirror_invoke pC5b klassC5b "sm" [] [] =
      .noSuchMethod (.rareType 6) "sm"
        (encodeInvocationType .staticCall .methodT) (some ["a"]) ∧
    ((Value.rareType 5 : Value) = .rareType 5 ∧ ("K." : String) = "K." ∧
      encodeInvocationType .constructorCall .methodT =
        encodeInvocationType .constructorCall .methodT ∧
      (none : Option (List String)) = none) := by
  constructor
  · exact (nsm_payload_amended pC5b).1 klassC5b "sm" [] [] statFnC5
      (by rfl) (Or.inl (by rfl))
  · exact (nsm_payload_amended pC5).2.2.2.1 klassC5 (rareTypeOf klassC5)
      "" [.nullInstance] [] (.rareType 5) "K."
      (encodeInvocationType .constructorCall .methodT) none (by rfl)

/-- C10: allocation discipline of `ClassMirror_invokeConstructor` — every
NoSuchMethod failure happens before any allocation or invocation (the
effect list is empty), and every success allocated at most once, before
the single invocation, whose argument vector starts with exactly two
implicit arguments (the fresh instance and the constructor phase) for a
generative constructor and exactly one (the type-argument vector) for a
factory, followed by the explicit arguments. -/
theorem invokeConstructor_allocation_discipline (p : Program) :
    (∀ (klass : ClassEnt) (type : AbstractType) (cname : String)
        (eargs : List Value) (ans : List String) r n t pn,
      (ClassMirror_invokeConstructor p klass type cname eargs ans).1 =
        .noSuchMethod r n t pn →
      (ClassMirror_invokeConstructor p klass type cname eargs ans).2 =
        []) ∧
    (∀ (klass : ClassEnt) (type : AbstractType) (cname : String)
        (eargs : List Value) (ans : List String) v,
      (ClassMirror_invokeConstructor p klass type cname eargs ans).1 =
        .ok v →
      (∃ rk ta fid2,
        (ClassMirror_invokeConstructor p klass type cname eargs ans).2 =
          [.allocated rk ta,
           .invokedFn fid2 (Value.freshInstance rk ::
             Value.smi kCtorPhaseAll :: eargs)]) ∨
      (∃ ta fid2,
        (ClassMirror_invokeConstructor p klass type cname eargs ans).2 =
          [.invokedFn fid2 (Value.typeArgsV ta :: eargs)])) ∧
    (∀ (klass : ClassEnt) (type : AbstractType) (cname : String)
        (eargs : List Value) (ans : List String) (lc : FunctionEnt),
      lookupFunction p klass (klass.name ++ "." ++ cname) = some lc →
      lc.isGenerativeConstructor = true → lc.isVisible = true →
      lc.isRedirectingFactoryF = false →
      areValidArguments lc ⟨2 + eargs.length, ans⟩ = true →
      (ClassMirror_invokeConstructor p klass type cname eargs ans).2 =
        [.allocated klass.id type.typeArguments,
         .invokedFn lc.id (Value.freshInstance klass.id ::
           Value.smi kCtorPhaseAll :: eargs)] ∧
      (∀ w, lc.invokeResult = .val w →
        (ClassMirror_invokeConstructor p klass type cname eargs ans).1 =
          .ok (Value.freshInstance klass.id))) ∧
    (∀ (klass : ClassEnt) (type : AbstractType) (cname : String)
        (eargs : List Value) (ans : List String) (lc : FunctionEnt),
      lookupFunction p klass (klass.name ++ "." ++ cname) = some lc →
      lc.isFactoryFn = true → lc.isVisible = true →
      lc.isRedirectingFactoryF = false →
      areValidArguments lc ⟨1 + eargs.length, ans⟩ = true →
      (ClassMirror_invokeConstructor p klass type cname eargs ans).2 =
        [.invokedFn lc.id (Value.typeArgsV type.typeArguments :: eargs)] ∧
      (∀ w, lc.invokeResult = .val w →
        (ClassMirror_invokeConstructor p klass type cname eargs ans).1 =
          .ok w)) := by
  refine ⟨?_, ?_, ?_, ?_⟩
  · intro klass type cname eargs ans r n t pn h
    rcases invokeConstructor_classify p klass type cname eargs ans with
      hc | ⟨m, hc⟩ | ⟨rc, rk, ta, _, hc⟩ | ⟨rc, rk, ta, _, hc⟩
    · rw [hc]
    · rw [hc] at h
      exact Outcome.noConfusion h
    · rw [hc] at h
      simp only at h
      cases hi : rc.invokeResult with
      | val w => rw [hi] at h; exact Outcome.noConfusion h
      | errv e =>
          rw [hi] at h
          simp only [throwInvokeError] at h
          split at h <;> exact Outcome.noConfusion h
    · rw [hc] at h
      simp only at h
      cases hi : rc.invokeResult with
      | val w => rw [hi] at h; exact Outcome.noConfusion h
      | errv e =>
          rw [hi] at h
          simp only [throwInvokeError] at h
          split at h <;> exact Outcome.noConfusion h
  · intro klass type cname eargs ans v h
    rcases invokeConstructor_classify p klass type cname eargs ans with
      hc | ⟨m, hc⟩ | ⟨rc, rk, ta, _, hc⟩ | ⟨rc, rk, ta, _, hc⟩
    · rw [hc] at h
      exact Outcome.noConfusion h
    · rw [hc] at h
      exact Outcome.noConfusion h
    · left
      exact ⟨rk, ta, rc.id, by rw [hc]⟩
    · right
      exact ⟨ta, rc.id, by rw [hc]⟩
  · intro klass type cname eargs ans lc hlc hgen hvis hred hval
    have hfac : (lc.isGenerativeConstructor || lc.isFactoryFn) = true := by
      simp [hgen]
    constructor
    · cases hi : lc.invokeResult with
      | val w =>
          simp [ClassMirror_invokeConstructor, hlc, hfac, hgen, hvis,
            hred, hval, invokeFunction, hi]
      | errv e =>
          simp [ClassMirror_invokeConstructor, hlc, hfac, hgen, hvis,
            hred, hval, invokeFunction, hi]
    · intro w hw
      simp [ClassMirror_invokeConstructor, hlc, hfac, hgen, hvis, hred,
        hval, invokeFunction, hw]
  · intro klass type cname eargs ans lc hlc hfac hvis hred hval
    have hgen : lc.isGenerativeConstructor = false := by
      simp only [FunctionEnt.isFactoryFn, Bool.and_eq_true,
        decide_eq_true_eq] at hfac
      simp [FunctionEnt.isGenerativeConstructor, hfac.1, hfac.2]
    have hfac2 : (lc.isGenerativeConstructor || lc.isFactoryFn) = true := by
      simp [hfac]
    constructor
    · cases hi : lc.invokeResult with
      | val w =>
          simp [ClassMirror_invokeConstructor, hlc, hfac, hfac2, hgen,
            hvis, hred, hval, invokeFunction, hi]
      | errv e =>
          simp [ClassMirror_invokeConstructor, hlc, hfac, hfac2, hgen,
            hvis, hred, hval, invokeFunction, hi]
    · intro w hw
      simp [ClassMirror_invokeConstructor, hlc, hfac, hfac2, hgen, hvis,
        hred, hval, invokeFunction, hw]

/-- C10 witness: a concrete generative constructor allocates then invokes
with the two implicit leading arguments; a concrete factory invokes with
the type-argument vector; and a wrong-arity call fails with NoSuchMethod
and an empty effect list. -/
theorem invokeConstructor_allocation_discipline_witness :
    (ClassMirror_invokeConstructor pW10 klassW10 (rareTypeOf klassW10) ""
        [] []).2 =
      [.allocated 5 none,
       .invokedFn 21 [.freshInstance 5, .smi kCtorPhaseAll]] ∧
    (ClassMirror_invokeConstructor pW10 klassW10 (rareTypeOf klassW10) "f"
        [.nullInstance] []).2 =
      [.invokedFn 22 [.typeArgsV none, .nullInstance]] ∧
    (ClassMirror_invokeConstructor pW10 klassW10 (rareTypeOf klassW10) ""
        [.nullInstance, .nullInstance] []).2 = [] := by
  have h := invokeConstructor_allocation_discipline pW10
  refine ⟨?_, ?_, ?_⟩
  · exact (h.2.2.1 klassW10 (rareTypeOf klassW10) "" [] [] ctorW10
      (by rfl) (by rfl) (by rfl) (by rfl) (by rfl)).1
  · exact (h.2.2.2 klassW10 (rareTypeOf klassW10) "f" [.nullInstance] []
      factW10 (by rfl) (by rfl) (by rfl) (by rfl) (by rfl)).1
  · exact h.1 klassW10 (rareTypeOf klassW10) ""
      [.nullInstance, .nullInstance] [] (.rareType 5) "K."
      (encodeInvocationType .constructorCall .methodT) none (by rfl)

end DartVM
